import Mathlib

/-!
Verification development for the e-commerce order/pricing core
(`sql/stored-procedures.sql`, the Mongoose `Product` model and
`mongodb/services/OrderService.js`).

The PostgreSQL side is shallowly embedded: tables become lists of rows,
`DECIMAL` becomes `ℚ`, UUIDs become `Nat`, timestamps become `Int`
(in days, so `CURRENT_DATE - INTERVAL n days` is subtraction), and a
PL/pgSQL function that can raise becomes a function into `Except PgError`;
an `Except.error` models the abort of the whole surrounding transaction,
so the caller keeps the original database state.
-/


namespace Mongo

/-- The inventory-relevant part of a Mongoose `Product` document. -/
structure MProduct where
  id : Nat
  quantity : Int
  reserved : Int
  available : Int
deriving DecidableEq

/-- Mongoose `document.save()` on the product schema: validation runs
before user `pre('save')` hooks, so the `min: 0` validators of `quantity`,
`reserved` and `available` see the document as the caller left it —
`available` still holds its stale stored value — and only then does the
hook of part_007 lines 117–133 recompute `available = quantity - reserved`;
the recomputed value is persisted without ever being validated. `none` is a
mongoose ValidationError — nothing is persisted. -/
def save (p : MProduct) : Option MProduct :=
  if 0 ≤ p.quantity && 0 ≤ p.reserved && 0 ≤ p.available then
    some { p with available := p.quantity - p.reserved }
  else none

/-- `updateInventory(quantity)` (part_007 lines 177–180): overwrite the
quantity and save. -/
def updateInventory (p : MProduct) (qty : Int) : Option MProduct :=
  save { p with quantity := qty }

/-- `reserveInventory(quantity)` (part_007 lines 182–188): increments
`reserved` and saves only when the stored `available` covers the request;
otherwise throws without touching the document. -/
def reserveInventory (p : MProduct) (qty : Int) : Option MProduct :=
  if qty ≤ p.available then save { p with reserved := p.reserved + qty }
  else none

/-- One line of a Mongoose order. -/
structure MOrderItem where
  productId : Nat
  quantity : Int
deriving DecidableEq

/-- The order fields `cancelOrder` reads. -/
structure MOrder where
  status : String
  items : List MOrderItem
deriving DecidableEq

/-- `Product.findById`. -/
def findProduct (store : List MProduct) (pid : Nat) : Option MProduct :=
  store.find? fun p => p.id == pid

/-- Persisting one saved document back into the collection. -/
def saveInStore (store : List MProduct) (p2 : MProduct) : List MProduct :=
  store.map fun x => if x.id == p2.id then p2 else x

/-- The release loop of `cancelOrder` (OrderService.js lines 267–273): for
each line, `reserved -= quantity` and save; a validation failure throws,
leaving the documents saved so far (there is no transaction), which the
error carries. -/
def releaseItems : List MProduct → List MOrderItem →
    Except (String × List MProduct) (List MProduct)
  | store, [] => .ok store
  | store, it :: rest =>
    match findProduct store it.productId with
    | none => releaseItems store rest
    | some p =>
      match save { p with reserved := p.reserved - it.quantity } with
      | none => .error ("ValidationError", store)
      | some p2 => releaseItems (saveInStore store p2) rest

/-- `cancelOrder` (OrderService.js lines 255–279): refuse shipped/delivered
orders, release the reserved stock of every line, mark the order
cancelled. -/
def cancelOrder (store : List MProduct) (o : MOrder) :
    Except (String × List MProduct) (List MProduct × MOrder) :=
  if o.status == "shipped" || o.status == "delivered" then
    .error ("Cannot cancel shipped or delivered orders", store)
  else
    match releaseItems store o.items with
    | .error e => .error e
    | .ok store2 => .ok (store2, { o with status := "cancelled" })

/-- Spec-side: the claimed per-document invariant. -/
def invariantHolds (p : MProduct) : Prop :=
  p.available = p.quantity - p.reserved ∧ 0 ≤ p.available ∧ 0 ≤ p.reserved
    ∧ 0 ≤ p.quantity

/-- Spec-side: the total quantity an order reserves for one product. -/
def totalQty (items : List MOrderItem) (pid : Nat) : Int :=
  ((items.filter fun it => it.productId == pid).map MOrderItem.quantity).sum

/-- Spec-side: a document after releasing `q` reserved units (with
`available` recomputed as the save hook does). -/
def applyRelease (p : MProduct) (q : Int) : MProduct :=
  ⟨p.id, p.quantity, p.reserved - q, p.quantity - (p.reserved - q)⟩

/-- A two-product store for the cancellation witness. -/
def mStore : List MProduct := [⟨1, 10, 5, 5⟩, ⟨2, 8, 3, 5⟩]

/-- A pending order whose lines reserve 3 units of product 1 and 3 of 2. -/
def mOrder : MOrder := ⟨"pending", [⟨1, 2⟩, ⟨2, 3⟩, ⟨1, 1⟩]⟩

end Mongo


namespace Sql

/-- Errors a PL/pgSQL execution can raise in the modelled fragment. -/
inductive PgError where
  /-- Reading a field of a RECORD variable that was never assigned. -/
  | recordNotAssigned (varname : String)
  /-- `jsonb_set` applied to a scalar jsonb value. -/
  | cannotSetPathInScalar
  /-- A CHECK constraint (here: `inventory_quantity >= 0`) was violated. -/
  | checkViolation
  /-- A NOT NULL column received NULL. -/
  | notNullViolation
deriving DecidableEq

/-- Row of `products` (the columns the modelled functions read). -/
structure Product where
  id : Nat
  sku : String
  name : String
  category_id : Nat
  brand_id : Nat
  price : ℚ
  is_active : Bool
  track_inventory : Bool
  inventory_quantity : Int
  low_stock_threshold : Int
deriving DecidableEq

/-- Row of `product_variants`. -/
structure ProductVariant where
  id : Nat
  product_id : Nat
  sku : String
  title : String
  price : ℚ
  inventory_quantity : Int
  is_active : Bool
deriving DecidableEq

/-- `coupons.type` check constraint values. -/
inductive CouponType where
  | percentage
  | fixed_amount
  | free_shipping
deriving DecidableEq

/-- Row of `coupons`. -/
structure Coupon where
  id : Nat
  code : String
  type : CouponType
  value : ℚ
  minimum_amount : ℚ
  usage_limit : Option Int
  usage_count : Int
  is_active : Bool
  starts_at : Option Int
  expires_at : Option Int
deriving DecidableEq

/-- Row of `orders` (columns read or written by the modelled functions;
`status` and `payment_status` get their schema defaults on insert). -/
structure OrderRow where
  id : Nat
  order_number : String
  user_id : Nat
  status : String
  payment_status : String
  subtotal : ℚ
  tax_amount : ℚ
  shipping_amount : ℚ
  discount_amount : ℚ
  total_amount : ℚ
  shipping_address : String
  billing_address : String
  created_at : Int
deriving DecidableEq

/-- Row of `order_items`. -/
structure OrderItemRow where
  order_id : Nat
  product_id : Nat
  variant_id : Option Nat
  quantity : Int
  unit_price : ℚ
  total_price : ℚ
  product_name : String
  product_sku : String
  variant_title : Option String
deriving DecidableEq

/-- Row of `inventory_transactions`. -/
structure InventoryTxn where
  product_id : Nat
  variant_id : Option Nat
  type : String
  quantity_change : Int
  quantity_after : Int
  reference_id : Nat
  reference_type : String
deriving DecidableEq

/-- Row of `coupon_usages`. -/
structure CouponUsageRow where
  coupon_id : Nat
  order_id : Nat
  user_id : Nat
  discount_amount : ℚ
deriving DecidableEq

/-- Row of `reviews` (columns the recommendation engine reads). -/
structure ReviewRow where
  product_id : Nat
  rating : Int
  is_approved : Bool
deriving DecidableEq

/-- Row of `cart_items` (only the owner matters to `process_order`). -/
structure CartItemRow where
  user_id : Nat
  product_id : Nat
deriving DecidableEq

/-- The database state seen by the stored procedures. -/
structure Db where
  products : List Product
  product_variants : List ProductVariant
  coupons : List Coupon
  orders : List OrderRow
  order_items : List OrderItemRow
  inventory_transactions : List InventoryTxn
  coupon_usages : List CouponUsageRow
  reviews : List ReviewRow
  cart_items : List CartItemRow
deriving DecidableEq

/-- One element of the `p_items` jsonb array. -/
structure OrderItemReq where
  product_id : Nat
  variant_id : Option Nat
  quantity : Int
deriving DecidableEq

/-- The arguments of `process_order`. -/
structure OrderRequest where
  user_id : Nat
  items : List OrderItemReq
  shipping_address : String
  billing_address : Option String
  coupon_code : Option String
deriving DecidableEq

/-- The row returned by `process_order`. -/
structure ProcessOrderResult where
  success : Bool
  order_id : Option Nat
  total_amount : ℚ
  message : String
deriving DecidableEq

/-- `SELECT * INTO v_product FROM products WHERE id = … AND is_active = true`. -/
def findActiveProduct (db : Db) (pid : Nat) : Option Product :=
  db.products.find? fun p => p.id == pid && p.is_active

/-- `SELECT * INTO v_product FROM products WHERE id = …` (second loop). -/
def findProductAny (db : Db) (pid : Nat) : Option Product :=
  db.products.find? fun p => p.id == pid

/-- `SELECT * INTO v_variant FROM product_variants WHERE id = … AND product_id = … AND is_active = true`. -/
def findActiveVariant (db : Db) (vid pid : Nat) : Option ProductVariant :=
  db.product_variants.find? fun v => v.id == vid && v.product_id == pid && v.is_active

/-- `SELECT * INTO v_variant FROM product_variants WHERE id = …` (second loop). -/
def findVariantAny (db : Db) (vid : Nat) : Option ProductVariant :=
  db.product_variants.find? fun v => v.id == vid

/-- `RTRIM(s, ', ')`: strip every trailing comma or blank. -/
def rtrimCommaSpace (s : String) : String :=
  String.mk ((s.data.reverse.dropWhile fun c => c == ',' || c == ' ').reverse)

/-- The validation loop of `process_order` (lines 39–83): walks every
requested line, accumulating the subtotal and the insufficient-stock
string; an unknown product or variant returns the failure row at once.
`Except.error` carries the early `RETURN QUERY … RETURN` result. -/
def validateLoop (db : Db) :
    List OrderItemReq → ℚ → String → Except ProcessOrderResult (ℚ × String)
  | [], sub, insuff => .ok (sub, insuff)
  | it :: rest, sub, insuff =>
    match findActiveProduct db it.product_id with
    | none =>
      .error ⟨false, none, 0, "Product not found: " ++ toString it.product_id⟩
    | some p =>
      match it.variant_id with
      | some vid =>
        match findActiveVariant db vid p.id with
        | none =>
          .error ⟨false, none, 0, "Product variant not found: " ++ toString vid⟩
        | some v =>
          let insuff1 :=
            if v.inventory_quantity < it.quantity then
              insuff ++ p.name ++ " (" ++ v.title ++ ")" ++ ", "
            else insuff
          validateLoop db rest (sub + v.price * (it.quantity : ℚ)) insuff1
      | none =>
        let insuff1 :=
          if p.inventory_quantity < it.quantity then insuff ++ p.name ++ ", "
          else insuff
        validateLoop db rest (sub + p.price * (it.quantity : ℚ)) insuff1

/-- `v_order_number := 'ORD-' || …` (derived from the clock only). -/
def orderNumber (now : Int) : String :=
  "ORD-" ++ toString now

/-- The WHERE clause of the coupon lookup (lines 96–100): code match,
active, inside the validity window, usage limit not reached. -/
def couponMatches (c : Coupon) (code : String) (now : Int) : Bool :=
  c.code == code && c.is_active
    && (match c.starts_at with | none => true | some s => s ≤ now)
    && (match c.expires_at with | none => true | some e => now ≤ e)
    && (match c.usage_limit with | none => true | some l => c.usage_count < l)

/-- The coupon lookup of lines 94–100. -/
def findCoupon (db : Db) (code : String) (now : Int) : Option Coupon :=
  db.coupons.find? fun c => couponMatches c code now

/-- Lines 102–113: given the looked-up coupon row, produce
`(v_discount_amount, v_shipping_amount)` from the running values. -/
def applyCoupon (cpn : Option Coupon) (subtotal shipping : ℚ) : ℚ × ℚ :=
  match cpn with
  | none => (0, shipping)
  | some c =>
    if c.minimum_amount ≤ subtotal then
      match c.type with
      | .percentage => (subtotal * (c.value / 100), shipping)
      | .fixed_amount => (min c.value subtotal, shipping)
      | .free_shipping => (0, 0)
    else (0, shipping)

/-- The mutation loop of `process_order` (lines 132–187): insert the
order item, decrement stock (the schema CHECK `inventory_quantity >= 0`
aborts the transaction when the decrement overdraws), and append the
ledger row.  Product ids are primary keys, so the fetched row is the
row the UPDATE touches. -/
def applyLoop (oid : Nat) : Db → List OrderItemReq → Except PgError Db
  | db, [] => .ok db
  | db, it :: rest =>
    match findProductAny db it.product_id with
    | none => .error .notNullViolation
    | some p =>
      match it.variant_id with
      | some vid =>
        match findVariantAny db vid with
        | none => .error .notNullViolation
        | some v =>
          if v.inventory_quantity - it.quantity < 0 then .error .checkViolation
          else
            applyLoop oid
              { db with
                order_items := db.order_items ++
                  [⟨oid, p.id, some v.id, it.quantity, v.price,
                    v.price * (it.quantity : ℚ), p.name, p.sku, some v.title⟩],
                product_variants := db.product_variants.map fun x =>
                  if x.id == v.id then
                    { x with inventory_quantity := x.inventory_quantity - it.quantity }
                  else x,
                inventory_transactions := db.inventory_transactions ++
                  [⟨p.id, some v.id, "sale", -it.quantity,
                    v.inventory_quantity - it.quantity, oid, "order"⟩] }
              rest
      | none =>
        if p.inventory_quantity - it.quantity < 0 then .error .checkViolation
        else
          applyLoop oid
            { db with
              order_items := db.order_items ++
                [⟨oid, p.id, none, it.quantity, p.price,
                  p.price * (it.quantity : ℚ), p.name, p.sku, none⟩],
              products := db.products.map fun x =>
                if x.id == p.id then
                  { x with inventory_quantity := x.inventory_quantity - it.quantity }
                else x,
              inventory_transactions := db.inventory_transactions ++
                [⟨p.id, none, "sale", -it.quantity,
                  p.inventory_quantity - it.quantity, oid, "order"⟩] }
            rest

/-- `DELETE FROM cart_items WHERE user_id = p_user_id`. -/
def clearCart (db : Db) (uid : Nat) : Db :=
  { db with cart_items := db.cart_items.filter fun ci => ¬ ci.user_id == uid }

/-- Lines 92–201 of `process_order`, entered once the whole batch passed
validation.  `couponLookup = none` models the RECORD `v_coupon` never
being assigned (the `p_coupon_code IS NULL` branch), `some none` models
the null row a rowless `SELECT INTO` leaves behind, and line 190
(`v_coupon.id IS NOT NULL`) raises on the unassigned record. -/
def finalizeOrder (db : Db) (req : OrderRequest) (now : Int) (oid : Nat)
    (subtotal : ℚ) : Except PgError (ProcessOrderResult × Db) :=
  let couponLookup : Option (Option Coupon) :=
    req.coupon_code.map fun code => findCoupon db code now
  let couponRow : Option Coupon :=
    match couponLookup with
    | some (some c) => some c
    | _ => none
  let ds := applyCoupon couponRow subtotal 10
  let discount := ds.1
  let shipping := ds.2
  let tax := (subtotal - discount) * (8 / 100)
  let total := subtotal + tax + shipping - discount
  let orow : OrderRow :=
    ⟨oid, orderNumber now, req.user_id, "pending", "pending", subtotal, tax,
      shipping, discount, total, req.shipping_address,
      req.billing_address.getD req.shipping_address, now⟩
  match applyLoop oid { db with orders := db.orders ++ [orow] } req.items with
  | .error e => .error e
  | .ok db2 =>
    match couponLookup with
    | none => .error (.recordNotAssigned "v_coupon")
    | some none =>
      .ok (⟨true, some oid, total, "Order processed successfully"⟩,
        clearCart db2 req.user_id)
    | some (some c) =>
      let db3 :=
        { db2 with
          coupons := db2.coupons.map fun x =>
            if x.id == c.id then { x with usage_count := x.usage_count + 1 } else x,
          coupon_usages := db2.coupon_usages ++
            [⟨c.id, oid, req.user_id, discount⟩] }
      .ok (⟨true, some oid, total, "Order processed successfully"⟩,
        clearCart db3 req.user_id)

/-- `process_order` (lines 5–202).  `now` is the clock, `oid` the fresh
`uuid_generate_v4()` value.  A returned `Except.error` is a raised
exception: the transaction aborts and no persisted state changes. -/
def process_order (db : Db) (req : OrderRequest) (now : Int) (oid : Nat) :
    Except PgError (ProcessOrderResult × Db) :=
  match validateLoop db req.items 0 "" with
  | .error r => .ok (r, db)
  | .ok (subtotal, insuff) =>
    if 0 < insuff.length then
      .ok (⟨false, none, 0, "Insufficient stock for: " ++ rtrimCommaSpace insuff⟩, db)
    else
      finalizeOrder db req now oid subtotal

/-- Spec-side: the line resolves to an active product (and an active
variant when one is named), i.e. the validation loop does not hit one of
its first-error `RETURN`s on this line. -/
def lineResolves (db : Db) (it : OrderItemReq) : Bool :=
  match findActiveProduct db it.product_id with
  | none => false
  | some p =>
    match it.variant_id with
    | none => true
    | some vid => (findActiveVariant db vid p.id).isSome

/-- Spec-side: the unit price the order charges for a line (variant price
when a variant is named, else product price). -/
def lineUnitPrice (db : Db) (it : OrderItemReq) : ℚ :=
  match findActiveProduct db it.product_id with
  | none => 0
  | some p =>
    match it.variant_id with
    | none => p.price
    | some vid =>
      match findActiveVariant db vid p.id with
      | none => 0
      | some v => v.price

/-- Spec-side: Σ (line unit price × quantity) over the requested lines. -/
def subtotalSpec (db : Db) (items : List OrderItemReq) : ℚ :=
  (items.map fun it => lineUnitPrice db it * (it.quantity : ℚ)).sum

/-- Spec-side: the label of every line whose stock check fails
(`name` or `name (variant title)`), in request order. -/
def insufficientLabels (db : Db) (items : List OrderItemReq) : List String :=
  items.filterMap fun it =>
    match findActiveProduct db it.product_id with
    | none => none
    | some p =>
      match it.variant_id with
      | some vid =>
        match findActiveVariant db vid p.id with
        | none => none
        | some v =>
          if v.inventory_quantity < it.quantity then
            some (p.name ++ " (" ++ v.title ++ ")")
          else none
      | none =>
        if p.inventory_quantity < it.quantity then some p.name else none

/-- `l₀ ++ ", " ++ l₁ ++ ", " ++ …` — the shape of the accumulated
insufficient-stock string. -/
def labelsConcat : List String → String
  | [] => ""
  | l :: ls => l ++ ", " ++ labelsConcat ls

/-- A small catalog product: price 5, stock 10. -/
def widget : Product := ⟨1, "SKU-1", "Widget", 1, 1, 5, true, true, 10, 2⟩

/-- A second product: price 7, stock 1. -/
def gadget : Product := ⟨2, "SKU-2", "Gadget", 1, 1, 7, true, true, 1, 2⟩

/-- A database holding just `widget`. -/
def dbOne : Db := ⟨[widget], [], [], [], [], [], [], [], []⟩

/-- A database holding `widget` and `gadget`. -/
def dbTwo : Db := ⟨[widget, gadget], [], [], [], [], [], [], [], []⟩

/-- A satisfiable single-line request with no coupon code. -/
def reqNoCoupon : OrderRequest := ⟨1, [⟨1, none, 1⟩], "addr", none, none⟩

/-- A request whose two lines both overdraw stock. -/
def reqShort : OrderRequest := ⟨1, [⟨1, none, 20⟩, ⟨2, none, 5⟩], "addr", none, none⟩

/-- A satisfiable request carrying an unknown coupon code. -/
def reqUnknownCoupon : OrderRequest := ⟨1, [⟨1, none, 2⟩], "addr", none, some "NOPE"⟩

/-- An active fixed-amount coupon whose minimum spend is 100. -/
def minCoupon : Coupon := ⟨7, "MIN100", .fixed_amount, 30, 100, none, 0, true, none, none⟩

/-- An active fixed-amount coupon of value 30 with no minimum spend. -/
def capCoupon : Coupon := ⟨8, "CAP30", .fixed_amount, 30, 0, none, 0, true, none, none⟩

/-- A database holding `widget` plus the two coupons. -/
def dbCoupon : Db := ⟨[widget], [], [minCoupon, capCoupon], [], [], [], [], [], []⟩

/-- A satisfiable request using the minimum-spend coupon on a subtotal of 5. -/
def reqMinCoupon : OrderRequest := ⟨1, [⟨1, none, 1⟩], "addr", none, some "MIN100"⟩

/-- Spec-side: the coupon row `process_order` ends up applying (the looked-up
row when a code was supplied and matched, otherwise none). -/
def couponOfReq (db : Db) (req : OrderRequest) (now : Int) : Option Coupon :=
  match req.coupon_code.map (fun code => findCoupon db code now) with
  | some (some c) => some c
  | _ => none

/-- Spec-side: the discount amount the committed order carries. -/
def orderDiscount (db : Db) (req : OrderRequest) (now : Int) (sub : ℚ) : ℚ :=
  (applyCoupon (couponOfReq db req now) sub 10).1

/-- Spec-side: the shipping amount the committed order carries. -/
def orderShipping (db : Db) (req : OrderRequest) (now : Int) (sub : ℚ) : ℚ :=
  (applyCoupon (couponOfReq db req now) sub 10).2

/-- Spec-side: the tax amount the committed order carries. -/
def orderTax (db : Db) (req : OrderRequest) (now : Int) (sub : ℚ) : ℚ :=
  (sub - orderDiscount db req now sub) * (8 / 100)

/-- Spec-side: the grand total the committed order carries. -/
def orderTotal (db : Db) (req : OrderRequest) (now : Int) (sub : ℚ) : ℚ :=
  sub + orderTax db req now sub + orderShipping db req now sub
    - orderDiscount db req now sub

/-- Spec-side: the `orders` row `process_order` inserts. -/
def orderRowOf (db : Db) (req : OrderRequest) (now : Int) (oid : Nat) (sub : ℚ) :
    OrderRow :=
  ⟨oid, orderNumber now, req.user_id, "pending", "pending", sub,
    orderTax db req now sub, orderShipping db req now sub,
    orderDiscount db req now sub, orderTotal db req now sub,
    req.shipping_address, req.billing_address.getD req.shipping_address, now⟩

/-- The result row of the successful C3 witness order. -/
def resultA : ProcessOrderResult := ⟨true, some 42, 104 / 5, "Order processed successfully"⟩

/-- The database state after the C3 witness order commits. -/
def dbOneAfter : Db :=
  ⟨[⟨1, "SKU-1", "Widget", 1, 1, 5, true, true, 8, 2⟩], [], [],
    [⟨42, "ORD-0", 1, "pending", "pending", 10, 4 / 5, 10, 0, 104 / 5, "addr", "addr", 0⟩],
    [⟨42, 1, none, 2, 5, 10, "Widget", "SKU-1", none⟩],
    [⟨1, none, "sale", -2, 8, 42, "order"⟩], [], [], []⟩

/-- The result row of the successful C10 witness order. -/
def resultB : ProcessOrderResult := ⟨true, some 42, 77 / 5, "Order processed successfully"⟩

/-- The database state after the C10 witness order commits. -/
def dbCouponAfter : Db :=
  ⟨[⟨1, "SKU-1", "Widget", 1, 1, 5, true, true, 9, 2⟩], [],
    [⟨7, "MIN100", .fixed_amount, 30, 100, none, 1, true, none, none⟩,
     ⟨8, "CAP30", .fixed_amount, 30, 0, none, 0, true, none, none⟩],
    [⟨42, "ORD-0", 1, "pending", "pending", 5, 2 / 5, 10, 0, 77 / 5, "addr", "addr", 0⟩],
    [⟨42, 1, none, 1, 5, 5, "Widget", "SKU-1", none⟩],
    [⟨1, none, "sale", -1, 9, 42, "order"⟩],
    [⟨7, 42, 1, 0⟩], [], []⟩

/-- Minimal jsonb universe for the pricing-factors value: an object with
string keys, or a scalar string (what the demand `SELECT … INTO` leaves in
`v_factors`). -/
inductive Jsonb where
  | obj (fields : List (String × Jsonb))
  | str (s : String)

/-- Update-or-append a key in a jsonb object field list. -/
def jsonbSetKey : List (String × Jsonb) → String → Jsonb → List (String × Jsonb)
  | [], k, v => [(k, v)]
  | (k0, v0) :: fs, k, v =>
    if k0 == k then (k0, v) :: fs else (k0, v0) :: jsonbSetKey fs k v

/-- `jsonb_set(target, '{key}', value)`: updates or adds the key of an
object; on a scalar target PostgreSQL raises `cannot set path in scalar`. -/
def jsonb_set : Jsonb → String → Jsonb → Except PgError Jsonb
  | .obj fs, k, v => .ok (.obj (jsonbSetKey fs k v))
  | .str _, _, _ => .error .cannotSetPathInScalar

/-- Result row of `calculate_dynamic_price`. -/
structure DynamicPriceRow where
  base_price : ℚ
  dynamic_price : ℚ
  discount_percentage : ℚ
  pricing_factors : Jsonb

/-- PostgreSQL rounding of a numeric to an integer: half away from zero. -/
def pgRoundInt (q : ℚ) : Int :=
  if 0 ≤ q then ⌊q + 1 / 2⌋ else -⌊-q + 1 / 2⌋

/-- `ROUND(x, 2)` on a numeric. -/
def pgRound2 (q : ℚ) : ℚ :=
  (pgRoundInt (q * 100) : ℚ) / 100

/-- The demand query of `calculate_dynamic_price` (lines 394–401):
`COUNT(*)` over paid order-item rows for the product in the trailing
7 days — it counts rows, not units sold. -/
def recent_sales_count (db : Db) (pid : Nat) (today : Int) : Nat :=
  ((db.order_items.filter fun oi => oi.product_id == pid).map fun oi =>
    (db.orders.filter fun o =>
      o.id == oi.order_id && today - 7 ≤ o.created_at
        && o.payment_status == "paid").length).sum

/-- Whether an aggregated `total_spent` (NULL when the user has no paid
orders) clears a bound; a NULL comparison never does. -/
def spentOver (ts : Option ℚ) (bound : ℚ) : Bool :=
  match ts with
  | some t => bound < t
  | none => false

/-- The loyalty CASE of `calculate_dynamic_price` (lines 420–435). -/
def loyalty_factor (db : Db) (uid : Nat) : ℚ :=
  let paid := db.orders.filter fun o => o.user_id == uid && o.payment_status == "paid"
  let total_spent : Option ℚ :=
    if paid.isEmpty then none else some (paid.map OrderRow.total_amount).sum
  if spentOver total_spent 1000 then 9 / 10
  else if spentOver total_spent 500 then 19 / 20
  else if 5 < paid.length then 97 / 100
  else 1

/-- `calculate_dynamic_price` (lines 358–458) for a fetched product row.
`month` is `EXTRACT(MONTH FROM CURRENT_DATE)`.  The two-column
`SELECT … INTO v_demand_factor, v_factors` at line 413 assigns the demand
CASE label into `v_factors`, replacing the accumulated object by a scalar
string, and line 416 then applies `jsonb_set` to that scalar. -/
def calculate_dynamic_price (db : Db) (p : Product) (uid : Option Nat)
    (today : Int) (month : Nat) : Except PgError DynamicPriceRow := do
  let v_base_price := p.price
  let inv : ℚ × Option String :=
    if p.inventory_quantity ≤ p.low_stock_threshold then
      (11 / 10, some "Low stock premium")
    else if 100 < p.inventory_quantity then (19 / 20, some "Overstock discount")
    else (1, none)
  let _f1 ← match inv.2 with
    | some lbl => jsonb_set (.obj []) "inventory" (.str lbl)
    | none => pure (Jsonb.obj [])
  let sale_count := recent_sales_count db p.id today
  let v_demand_factor : ℚ :=
    if 10 < sale_count then 21 / 20 else if sale_count < 2 then 9 / 10 else 1
  let f2 : Jsonb := .str
    (if 10 < sale_count then "High demand premium"
     else if sale_count < 2 then "Low demand discount" else "Normal demand")
  let f3 ← jsonb_set f2 "demand" f2
  let v_loyalty_factor : ℚ :=
    match uid with
    | none => 1
    | some u => loyalty_factor db u
  let f4 ← if v_loyalty_factor < 1 then
      jsonb_set f3 "loyalty" (.str "Customer loyalty discount")
    else pure f3
  let v_seasonal_factor : ℚ := if month = 11 ∨ month = 12 then 21 / 20 else 1
  let f5 ← if month = 11 ∨ month = 12 then
      jsonb_set f4 "seasonal" (.str "Holiday season premium")
    else pure f4
  let v_final_price := v_base_price * inv.1 * v_demand_factor
    * v_loyalty_factor * v_seasonal_factor
  let v_discount_percent := ((v_base_price - v_final_price) / v_base_price) * 100
  pure ⟨v_base_price, pgRound2 v_final_price, pgRound2 v_discount_percent, f5⟩

/-- The product of the §8 pricing scenario: base 100, stock 5, threshold 10. -/
def priceProd : Product := ⟨1, "SKU-H", "Hot", 1, 1, 100, true, true, 5, 10⟩

/-- Database for the pricing scenario: 12 paid order-item rows for the
product in the trailing week, and user 9 with a paid lifetime spend of
1200. -/
def priceDb : Db :=
  ⟨[priceProd], [], [],
    [⟨500, "ORD-A", 9, "pending", "paid", 1200, 0, 0, 0, 1200, "a", "a", 95⟩],
    List.replicate 12 ⟨500, 1, none, 1, 100, 100, "Hot", "SKU-H", none⟩,
    [], [], [], []⟩

/-- A low-stock product with no sales: both the inventory condition and the
demand condition fire. -/
def priceProd2 : Product := ⟨2, "SKU-C", "Cold", 1, 1, 50, true, true, 3, 10⟩

/-- Database holding only `priceProd2`, with no orders at all. -/
def priceDb2 : Db := ⟨[priceProd2], [], [], [], [], [], [], [], []⟩

/-- The join of `order_items` with paid orders of the trailing 30 days
(the `daily_sales` subquery source rows, lines 484–494). -/
def paidWindowPairs (db : Db) (today : Int) : List (OrderItemRow × OrderRow) :=
  db.order_items.flatMap fun oi =>
    (db.orders.filter fun o =>
      o.id == oi.order_id && o.payment_status == "paid"
        && today - 30 ≤ o.created_at).map fun o => (oi, o)

/-- The distinct sale dates of a product inside the window
(`GROUP BY oi.product_id, DATE(o.created_at)`). -/
def saleDates (db : Db) (pid : Nat) (today : Int) : List Int :=
  (((paidWindowPairs db today).filter fun pr => pr.1.product_id == pid).map
    fun pr => pr.2.created_at).dedup

/-- `SUM(oi.quantity)` of one (product, date) group. -/
def dailyQty (db : Db) (pid : Nat) (today : Int) (d : Int) : ℚ :=
  (((paidWindowPairs db today).filter fun pr =>
    pr.2.created_at == d && pr.1.product_id == pid).map
      fun pr => (pr.1.quantity : ℚ)).sum

/-- `COALESCE(AVG(daily_sales.quantity), 0)` (line 480): the mean of the
per-date sums over the dates that actually had sales — NOT over 30 days. -/
def avg_daily_sales (db : Db) (pid : Nat) (today : Int) : ℚ :=
  let ds := saleDates db pid today
  if ds.isEmpty then 0
  else ((ds.map fun d => dailyQty db pid today d).sum) / ds.length

/-- A `sales_data` CTE row (unrounded numerics, as used by the outer SELECT
and its ORDER BY). -/
structure SalesDataRow where
  product_id : Nat
  product_name : String
  current_stock : Int
  avg_daily_sales : ℚ
  lead_time_days : Int
  safety_stock : ℚ
deriving DecidableEq

/-- Build the `sales_data` row of one product (lines 475–496). -/
def mkSalesData (db : Db) (today : Int) (p : Product) : SalesDataRow :=
  ⟨p.id, p.name, p.inventory_quantity, avg_daily_sales db p.id today, 7,
    max (avg_daily_sales db p.id today * 3) 5⟩

/-- Output row of `calculate_reorder_points`. -/
structure ReorderRow where
  product_id : Nat
  product_name : String
  current_stock : Int
  avg_daily_sales : ℚ
  lead_time_days : Int
  safety_stock : Int
  reorder_point : Int
  suggested_order_quantity : Int
  urgency_level : String
deriving DecidableEq

/-- The unrounded reorder point `avg × lead_time + safety` a row compares
its stock against. -/
def reorderPointQ (sd : SalesDataRow) : ℚ :=
  sd.avg_daily_sales * (sd.lead_time_days : ℚ) + sd.safety_stock

/-- The ORDER BY rank (lines 514–520): 1 critical … 4 low. -/
def urgencyRank (sd : SalesDataRow) : Nat :=
  if sd.current_stock ≤ 0 then 1
  else if (sd.current_stock : ℚ) ≤ reorderPointQ sd * (1 / 2) then 2
  else if (sd.current_stock : ℚ) ≤ reorderPointQ sd then 3
  else 4

/-- `ORDER BY` urgency rank ascending, then `avg_daily_sales DESC`. -/
def reorderLE (a b : SalesDataRow) : Prop :=
  (urgencyRank a < urgencyRank b
    || (urgencyRank a == urgencyRank b && b.avg_daily_sales ≤ a.avg_daily_sales)) = true

instance : DecidableRel reorderLE := fun a b => by
  unfold reorderLE
  infer_instance

/-- The outer SELECT of `calculate_reorder_points` (lines 498–512):
rounding of the numerics to 2 decimals / integers and the urgency CASE. -/
def projectReorder (sd : SalesDataRow) : ReorderRow :=
  ⟨sd.product_id, sd.product_name, sd.current_stock,
    pgRound2 sd.avg_daily_sales, sd.lead_time_days,
    pgRoundInt sd.safety_stock,
    pgRoundInt (reorderPointQ sd),
    max (pgRoundInt (sd.avg_daily_sales * 30)) 10,
    if sd.current_stock ≤ 0 then "CRITICAL - Out of Stock"
    else if (sd.current_stock : ℚ) ≤ reorderPointQ sd * (1 / 2) then
      "HIGH - Immediate Reorder"
    else if (sd.current_stock : ℚ) ≤ reorderPointQ sd then "MEDIUM - Reorder Soon"
    else "LOW - Monitor"⟩

/-- `calculate_reorder_points` (lines 461–523). -/
def calculate_reorder_points (db : Db) (today : Int) : List ReorderRow :=
  (((db.products.filter fun p => p.is_active && p.track_inventory).map
    (mkSalesData db today)).insertionSort reorderLE).map projectReorder

/-- Spec-side: total units sold for the product inside the window. -/
def unitsSold30 (db : Db) (pid : Nat) (today : Int) : ℚ :=
  (((paidWindowPairs db today).filter fun pr => pr.1.product_id == pid).map
    fun pr => (pr.1.quantity : ℚ)).sum

/-- Spec-side, from the claim's words: mean units per day over the trailing
30 days with no-sale days counted as zero. -/
def claimAvg30 (db : Db) (pid : Nat) (today : Int) : ℚ :=
  unitsSold30 db pid today / 30

/-- A trackable product with plenty of stock for the reorder scenario. -/
def reorderProd : Product := ⟨3, "SKU-R", "Roller", 1, 1, 20, true, true, 100, 2⟩

/-- One paid order of 30 units on a single day of the trailing month. -/
def reorderDb : Db :=
  ⟨[reorderProd], [], [],
    [⟨600, "ORD-B", 2, "pending", "paid", 600, 0, 0, 0, 600, "a", "a", 29⟩],
    [⟨600, 3, none, 30, 20, 600, "Roller", "SKU-R", none⟩], [], [], [], []⟩

/-- Spec-side: the averaging rule the code actually implements — units per
day over the days that had at least one sale (0 when there were none). -/
def salesDayAvg (db : Db) (pid : Nat) (today : Int) : ℚ :=
  if saleDates db pid today = [] then 0
  else unitsSold30 db pid today / (saleDates db pid today).length

/-- Spec-side: `max(avg × 3, 5)`. -/
def safetyStockSpec (db : Db) (pid : Nat) (today : Int) : ℚ :=
  max (salesDayAvg db pid today * 3) 5

/-- Spec-side: `avg × 7 + safety`. -/
def reorderPointSpec (db : Db) (pid : Nat) (today : Int) : ℚ :=
  salesDayAvg db pid today * 7 + safetyStockSpec db pid today

/-- `AVG(rating)` over approved reviews with the LEFT-JOIN `COALESCE(…, 0)`
every recommendation CTE applies. -/
def avgRating (db : Db) (pid : Nat) : ℚ :=
  let rs := (db.reviews.filter fun r => r.product_id == pid && r.is_approved).map
    fun r => (r.rating : ℚ)
  if rs.isEmpty then 0 else rs.sum / rs.length

/-- A row of the recommendation CTEs: candidate fields, base score
(`none` models the NULL a LEFT JOIN can leave) and reason label. -/
structure RecRow where
  id : Nat
  name : String
  price : ℚ
  avg_rating : ℚ
  base_score : Option ℚ
  reason : String
deriving DecidableEq

/-- The `similar_products` CTE (lines 232–250): same category as the viewed
product, active, not the viewed product itself; a NULL `p_product_id` makes
the category subquery NULL and the CTE empty. -/
def similar_products (db : Db) (pid? : Option Nat) : List RecRow :=
  match pid? with
  | none => []
  | some pid =>
    match db.products.find? fun x => x.id == pid with
    | none => []
    | some vp =>
      (db.products.filter fun q =>
        q.category_id == vp.category_id && q.id != pid && q.is_active).map fun q =>
        ⟨q.id, q.name, q.price, avgRating db q.id, some 3, "Similar product"⟩

/-- Whether some order contains both the viewed product and the candidate
(the `IN` subquery of lines 266–272). -/
def coPurchased (db : Db) (pid cand : Nat) : Bool :=
  cand != pid && db.order_items.any fun oi1 => oi1.product_id == pid &&
    db.order_items.any fun oi2 =>
      oi2.order_id == oi1.order_id && oi2.product_id == cand

/-- The `COUNT(*)` of one `frequently_bought_together` group (lines
258, 274): the LEFT JOIN to the one-row rating aggregate leaves exactly one
row per candidate product, so the group of a candidate only collects the
candidate rows sharing its (id, name, price, rating) key. -/
def fbtGroupCount (db : Db) (pid : Nat) (q : Product) : Nat :=
  ((db.products.filter fun x => x.is_active && coPurchased db pid x.id).filter
    fun x => x.id == q.id && x.name == q.name && x.price == q.price
      && avgRating db x.id == avgRating db q.id).length

/-- The `frequently_bought_together` CTE (lines 251–275). -/
def frequently_bought_together (db : Db) (pid? : Option Nat) : List RecRow :=
  match pid? with
  | none => []
  | some pid =>
    (db.products.filter fun x => x.is_active && coPurchased db pid x.id).map fun q =>
      ⟨q.id, q.name, q.price, avgRating db q.id,
        some (4 + (fbtGroupCount db pid q : ℚ) * (1 / 2)),
        "Frequently bought together"⟩

/-- The joined (category, brand) rows of the customer's paid purchases. -/
def userPrefRows (db : Db) (uid : Nat) : List (Nat × Nat) :=
  (db.orders.filter fun o => o.user_id == uid && o.payment_status == "paid").flatMap
    fun o => (db.order_items.filter fun oi => oi.order_id == o.id).flatMap
      fun oi => (db.products.filter fun x => x.id == oi.product_id).map
        fun x => (x.category_id, x.brand_id)

/-- The `user_preferences` CTE (lines 220–231): one (category, brand) group
with its `COUNT(*)`. -/
def user_preferences (db : Db) (uid : Nat) : List (Nat × Nat × Nat) :=
  (userPrefRows db uid).dedup.map fun k =>
    (k.1, k.2, ((userPrefRows db uid).filter fun x => x == k).length)

/-- The `user_based_recommendations` CTE (lines 276–295): LEFT JOIN against
the preference groups on category OR brand — one output row per matching
group, one COALESCE row when none matches; empty without a user.  The
`COALESCE(p_product_id, zero-uuid)` sentinel becomes `getD 0`. -/
def user_based (db : Db) (uid? pid? : Option Nat) : List RecRow :=
  match uid? with
  | none => []
  | some uid =>
    (db.products.filter fun q => q.is_active && q.id != pid?.getD 0).flatMap fun q =>
      let prefs := (user_preferences db uid).filter fun k =>
        k.1 == q.category_id || k.2.1 == q.brand_id
      if prefs.isEmpty then
        [⟨q.id, q.name, q.price, avgRating db q.id, some 2,
          "Based on your preferences"⟩]
      else prefs.map fun k =>
        ⟨q.id, q.name, q.price, avgRating db q.id,
          some (2 + (k.2.2 : ℚ) * (3 / 10)), "Based on your preferences"⟩

/-- `COUNT(DISTINCT oi.order_id)` of paid orders containing the product in
the trailing 30 days (lines 311–320). -/
def recentOrderCount (db : Db) (pid : Nat) (today : Int) : Nat :=
  (((db.order_items.filter fun oi => oi.product_id == pid).flatMap fun oi =>
    (db.orders.filter fun o => o.id == oi.order_id
      && today - 30 ≤ o.created_at && o.payment_status == "paid").map
        fun o => o.id).dedup).length

/-- The `trending_products` CTE (lines 296–323): a product with no recent
sales row gets `1.0 + NULL × 0.1`, i.e. a NULL base score. -/
def trending_products (db : Db) (pid? : Option Nat) (today : Int) : List RecRow :=
  (db.products.filter fun q => q.is_active && q.id != pid?.getD 0).map fun q =>
    ⟨q.id, q.name, q.price, avgRating db q.id,
      if recentOrderCount db q.id today = 0 then none
      else some (1 + (recentOrderCount db q.id today : ℚ) * (1 / 10)),
      "Trending product"⟩

/-- `all_recommendations` (lines 324–332). -/
def all_recommendations (db : Db) (uid? pid? : Option Nat) (today : Int) :
    List RecRow :=
  similar_products db pid? ++ frequently_bought_together db pid?
    ++ user_based db uid? pid? ++ trending_products db pid? today

/-- SQL `SUM` over a nullable column: NULL entries are skipped and an
all-NULL (or empty) group sums to NULL. -/
def sumOpt (l : List (Option ℚ)) : Option ℚ :=
  let vs := l.filterMap id
  if vs.isEmpty then none else some vs.sum

/-- An output row of `get_product_recommendations`. -/
structure RecOut where
  product_id : Nat
  product_name : String
  price : ℚ
  avg_rating : ℚ
  recommendation_score : Option ℚ
  recommendation_reason : String
deriving DecidableEq

/-- The GROUP BY key of `scored_recommendations`. -/
def recKey (r : RecRow) : Nat × String × ℚ × ℚ := (r.id, r.name, r.price, r.avg_rating)

/-- The key a product generates in every CTE. -/
def recKeyOf (db : Db) (q : Product) : Nat × String × ℚ × ℚ :=
  (q.id, q.name, q.price, avgRating db q.id)

/-- `scored_recommendations` plus the outer SELECT (lines 333–351):
group by key, `SUM(base_score) + rating × 0.5`, `STRING_AGG(DISTINCT reason)`,
rounding to 2 decimals. -/
def scored_recommendations (db : Db) (uid? pid? : Option Nat) (today : Int) :
    List RecOut :=
  ((all_recommendations db uid? pid? today).map recKey).dedup.map fun k =>
    let grp := (all_recommendations db uid? pid? today).filter fun r => recKey r == k
    ⟨k.1, k.2.1, k.2.2.1, pgRound2 k.2.2.2,
      (sumOpt (grp.map RecRow.base_score)).map fun s => pgRound2 (s + k.2.2.2 * (1 / 2)),
      String.intercalate ", " (grp.map RecRow.reason).dedup⟩

/-- `ORDER BY final_score DESC` as a Bool comparator; PostgreSQL places
NULLs first when sorting descending. -/
def recLEb (a b : RecOut) : Bool :=
  match a.recommendation_score, b.recommendation_score with
  | none, _ => true
  | some _, none => false
  | some x, some y => y ≤ x

/-- The ordering relation behind the output sort. -/
def recLE (a b : RecOut) : Prop := recLEb a b = true

instance : DecidableRel recLE := fun a b => by
  unfold recLE
  infer_instance

instance : IsTotal RecOut recLE := by
  constructor
  intro a b
  unfold recLE recLEb
  cases a.recommendation_score with
  | none => left; rfl
  | some x =>
    cases b.recommendation_score with
    | none => right; rfl
    | some y =>
      rcases le_total x y with h | h
      · right; simpa using h
      · left; simpa using h

instance : IsTrans RecOut recLE := by
  constructor
  intro a b c hab hbc
  unfold recLE recLEb at *
  cases ha : a.recommendation_score with
  | none => rfl
  | some x =>
    rw [ha] at hab
    cases hb : b.recommendation_score with
    | none => rw [hb] at hab; cases hab
    | some y =>
      rw [hb] at hab hbc
      cases hc : c.recommendation_score with
      | none => rw [hc] at hbc; cases hbc
      | some z =>
        rw [hc] at hbc
        simp only [decide_eq_true_eq] at hab hbc ⊢
        exact le_trans hbc hab

/-- `get_product_recommendations` (lines 205–355). -/
def get_product_recommendations (db : Db) (uid? pid? : Option Nat) (lim : Nat)
    (today : Int) : List RecOut :=
  ((scored_recommendations db uid? pid? today).insertionSort recLE).take lim

/-- Spec-side: what one product contributes to `similar_products`. -/
def simContrib (db : Db) (pid? : Option Nat) (q : Product) : List RecRow :=
  match pid? with
  | none => []
  | some pid =>
    match db.products.find? fun x => x.id == pid with
    | none => []
    | some vp =>
      if q.category_id == vp.category_id && q.id != pid && q.is_active then
        [⟨q.id, q.name, q.price, avgRating db q.id, some 3, "Similar product"⟩]
      else []

/-- Spec-side: what one product contributes to co-purchase scoring — a
constant base 4.5 (the co-order count never enters). -/
def fbtContrib (db : Db) (pid? : Option Nat) (q : Product) : List RecRow :=
  match pid? with
  | none => []
  | some pid =>
    if q.is_active && coPurchased db pid q.id then
      [⟨q.id, q.name, q.price, avgRating db q.id, some (9 / 2),
        "Frequently bought together"⟩]
    else []

/-- Spec-side: what one product contributes to the preference scoring. -/
def userContrib (db : Db) (uid? pid? : Option Nat) (q : Product) : List RecRow :=
  match uid? with
  | none => []
  | some uid =>
    if q.is_active && q.id != pid?.getD 0 then
      (let prefs := (user_preferences db uid).filter fun k =>
        k.1 == q.category_id || k.2.1 == q.brand_id
      if prefs.isEmpty then
        [⟨q.id, q.name, q.price, avgRating db q.id, some 2,
          "Based on your preferences"⟩]
      else prefs.map fun k =>
        ⟨q.id, q.name, q.price, avgRating db q.id,
          some (2 + (k.2.2 : ℚ) * (3 / 10)), "Based on your preferences"⟩)
    else []

/-- Spec-side: what one product contributes to trending — nothing at all
when it had no paid order in the trailing 30 days. -/
def trendContrib (db : Db) (pid? : Option Nat) (today : Int) (q : Product) :
    List RecRow :=
  if q.is_active && q.id != pid?.getD 0 then
    [⟨q.id, q.name, q.price, avgRating db q.id,
      if recentOrderCount db q.id today = 0 then none
      else some (1 + (recentOrderCount db q.id today : ℚ) * (1 / 10)),
      "Trending product"⟩]
  else []

/-- Spec-side: all rows one product contributes across the four sources. -/
def contribRows (db : Db) (uid? pid? : Option Nat) (today : Int) (q : Product) :
    List RecRow :=
  simContrib db pid? q ++ fbtContrib db pid? q ++ userContrib db uid? pid? q
    ++ trendContrib db pid? today q

/-- Spec-side, from the claim's words: the number of distinct orders
containing both the viewed product and the candidate. -/
def coOrderCount (db : Db) (pid cand : Nat) : Nat :=
  (((db.order_items.filter fun oi2 => oi2.product_id == cand &&
    db.order_items.any fun oi1 =>
      oi1.order_id == oi2.order_id && oi1.product_id == pid).map
        fun oi2 => oi2.order_id).dedup).length

/-- Two products of different categories for the co-purchase scenario. -/
def recProdA : Product := ⟨1, "SKU-A", "Alpha", 1, 1, 10, true, true, 50, 2⟩

/-- The candidate product, co-purchased with `recProdA` in three orders. -/
def recProdB : Product := ⟨2, "SKU-B", "Beta", 9, 9, 20, true, true, 50, 2⟩

/-- Three old paid orders, each containing both products (outside the
trailing-30-day trending window at `today = 100`). -/
def recDb : Db :=
  ⟨[recProdA, recProdB], [], [],
    [⟨11, "ORD-1", 5, "pending", "paid", 30, 0, 0, 0, 30, "a", "a", 1⟩,
     ⟨12, "ORD-2", 5, "pending", "paid", 30, 0, 0, 0, 30, "a", "a", 2⟩,
     ⟨13, "ORD-3", 5, "pending", "paid", 30, 0, 0, 0, 30, "a", "a", 3⟩],
    [⟨11, 1, none, 1, 10, 10, "Alpha", "SKU-A", none⟩,
     ⟨11, 2, none, 1, 20, 20, "Beta", "SKU-B", none⟩,
     ⟨12, 1, none, 1, 10, 10, "Alpha", "SKU-A", none⟩,
     ⟨12, 2, none, 1, 20, 20, "Beta", "SKU-B", none⟩,
     ⟨13, 1, none, 1, 10, 10, "Alpha", "SKU-A", none⟩,
     ⟨13, 2, none, 1, 20, 20, "Beta", "SKU-B", none⟩],
    [], [], [], []⟩

end Sql

instance {ε α : Type} [DecidableEq ε] [DecidableEq α] : DecidableEq (Except ε α) := fun a b =>
  match a, b with
  | .ok x, .ok y => if h : x = y then .isTrue (by rw [h]) else .isFalse (by simp [h])
  | .error x, .error y => if h : x = y then .isTrue (by rw [h]) else .isFalse (by simp [h])
  | .ok _, .error _ => .isFalse (by simp)
  | .error _, .ok _ => .isFalse (by simp)

namespace Sql


theorem validateLoop_eq_of_resolves (db : Db) :
    ∀ (items : List OrderItemReq) (sub : ℚ) (ins : String),
      (∀ it ∈ items, lineResolves db it = true) →
      validateLoop db items sub ins =
        .ok (sub + subtotalSpec db items,
             ins ++ labelsConcat (insufficientLabels db items))
  | [], sub, ins, _ => by
      simp [validateLoop, subtotalSpec, insufficientLabels, labelsConcat,
        String.append_empty]
  | it :: rest, sub, ins, h => by
      have hit : lineResolves db it = true := h it (by simp)
      have hrest : ∀ x ∈ rest, lineResolves db x = true := fun x hx =>
        h x (List.mem_cons_of_mem _ hx)
      unfold lineResolves at hit
      unfold validateLoop
      cases hp : findActiveProduct db it.product_id with
      | none => rw [hp] at hit; exact absurd hit (by simp)
      | some p =>
        rw [hp] at hit
        cases hv : it.variant_id with
        | none =>
          simp only [hp, hv]
          rw [validateLoop_eq_of_resolves db rest _ _ hrest]
          by_cases hq : p.inventory_quantity < it.quantity <;>
            simp [hq, subtotalSpec, insufficientLabels, lineUnitPrice, labelsConcat,
              hp, hv, String.append_assoc, add_assoc]
        | some vid =>
          rw [hv] at hit
          simp only [Option.isSome] at hit
          cases hfv : findActiveVariant db vid p.id with
          | none => rw [hfv] at hit; exact absurd hit (by simp)
          | some v =>
            simp only [hp, hv, hfv]
            rw [validateLoop_eq_of_resolves db rest _ _ hrest]
            by_cases hq : v.inventory_quantity < it.quantity <;>
              simp [hq, subtotalSpec, insufficientLabels, lineUnitPrice, labelsConcat,
                hp, hv, hfv, String.append_assoc, add_assoc]


theorem validateLoop_error_success (db : Db) :
    ∀ (items : List OrderItemReq) (sub : ℚ) (ins : String) (r : ProcessOrderResult),
      validateLoop db items sub ins = .error r → r.success = false
  | [], sub, ins, r => by simp [validateLoop]
  | it :: rest, sub, ins, r => by
      unfold validateLoop
      cases hp : findActiveProduct db it.product_id with
      | none => simp only [hp]; intro h; cases h; rfl
      | some p =>
        cases hv : it.variant_id with
        | none =>
          simp only [hp, hv]
          intro h
          exact validateLoop_error_success db rest _ _ r h
        | some vid =>
          cases hfv : findActiveVariant db vid p.id with
          | none => simp only [hp, hv, hfv]; intro h; cases h; rfl
          | some v =>
            simp only [hp, hv, hfv]
            intro h
            exact validateLoop_error_success db rest _ _ r h

theorem resolves_of_validateLoop_ok (db : Db) :
    ∀ (items : List OrderItemReq) (sub : ℚ) (ins : String) (out : ℚ × String),
      validateLoop db items sub ins = .ok out →
      ∀ it ∈ items, lineResolves db it = true
  | [], sub, ins, out => by simp
  | it :: rest, sub, ins, out => by
      unfold validateLoop
      cases hp : findActiveProduct db it.product_id with
      | none => simp only [hp]; intro h; cases h
      | some p =>
        cases hv : it.variant_id with
        | none =>
          simp only [hp, hv]
          intro h x hx
          rcases List.mem_cons.mp hx with rfl | hx
          · simp [lineResolves, hp, hv]
          · exact resolves_of_validateLoop_ok db rest _ _ out h x hx
        | some vid =>
          cases hfv : findActiveVariant db vid p.id with
          | none => simp only [hp, hv, hfv]; intro h; cases h
          | some v =>
            simp only [hp, hv, hfv]
            intro h x hx
            rcases List.mem_cons.mp hx with rfl | hx
            · simp [lineResolves, hp, hv, hfv]
            · exact resolves_of_validateLoop_ok db rest _ _ out h x hx

theorem applyLoop_preserves (oid : Nat) :
    ∀ (items : List OrderItemReq) (db db2 : Db),
      applyLoop oid db items = .ok db2 →
      db2.orders = db.orders ∧ db2.coupons = db.coupons ∧
      db2.coupon_usages = db.coupon_usages ∧ db2.cart_items = db.cart_items
  | [], db, db2 => by
      intro h
      cases h
      exact ⟨rfl, rfl, rfl, rfl⟩
  | it :: rest, db, db2 => by
      unfold applyLoop
      cases hp : findProductAny db it.product_id with
      | none => simp only [hp]; intro h; cases h
      | some p =>
        cases hv : it.variant_id with
        | none =>
          simp only [hp, hv]
          by_cases hq : p.inventory_quantity - it.quantity < 0
          · simp only [if_pos hq]
            intro h; cases h
          · simp only [if_neg hq]
            intro h
            have hrec := applyLoop_preserves oid rest _ db2 h
            simpa using hrec
        | some vid =>
          cases hfv : findVariantAny db vid with
          | none => simp only [hp, hv, hfv]; intro h; cases h
          | some v =>
            simp only [hp, hv, hfv]
            by_cases hq : v.inventory_quantity - it.quantity < 0
            · simp only [if_pos hq]
              intro h; cases h
            · simp only [if_neg hq]
              intro h
              have hrec := applyLoop_preserves oid rest _ db2 h
              simpa using hrec

theorem finalizeOrder_spec (db : Db) (req : OrderRequest) (now : Int) (oid : Nat)
    (sub : ℚ) (r : ProcessOrderResult) (db2 : Db)
    (h : finalizeOrder db req now oid sub = .ok (r, db2)) :
    r.success = true ∧ r.total_amount = orderTotal db req now sub ∧
    orderRowOf db req now oid sub ∈ db2.orders ∧
    ∀ c, req.coupon_code.map (fun code => findCoupon db code now) = some (some c) →
      db2.coupons = db.coupons.map
        (fun x => if x.id == c.id then { x with usage_count := x.usage_count + 1 } else x) ∧
      (⟨c.id, oid, req.user_id, orderDiscount db req now sub⟩ : CouponUsageRow)
        ∈ db2.coupon_usages := by
  unfold finalizeOrder at h
  cases hcc : req.coupon_code with
  | none =>
    rw [hcc] at h
    simp only [Option.map_none'] at h
    split at h
    · cases h
    · cases h
  | some code =>
    rw [hcc] at h
    simp only [Option.map_some'] at h
    cases hfc : findCoupon db code now with
    | none =>
      rw [hfc] at h
      split at h
      · cases h
      · rename_i dbm happ
        cases h
        have hpres := applyLoop_preserves oid req.items _ dbm happ
        refine ⟨rfl, ?_, ?_, ?_⟩
        · simp [orderTotal, orderTax, orderShipping, orderDiscount, couponOfReq, hcc, hfc]
        · simp only [clearCart]
          rw [hpres.1]
          simp [orderRowOf, orderTax, orderShipping, orderDiscount, orderTotal,
            couponOfReq, hcc, hfc]
        · intro c hcon
          simp [hfc] at hcon
    | some c0 =>
      rw [hfc] at h
      split at h
      · cases h
      · rename_i dbm happ
        cases h
        have hpres := applyLoop_preserves oid req.items _ dbm happ
        refine ⟨rfl, ?_, ?_, ?_⟩
        · simp [orderTotal, orderTax, orderShipping, orderDiscount, couponOfReq, hcc, hfc]
        · simp only [clearCart]
          rw [hpres.1]
          simp [orderRowOf, orderTax, orderShipping, orderDiscount, orderTotal,
            couponOfReq, hcc, hfc]
        · intro c hcon
          simp only [Option.map_some', hfc, Option.some.injEq] at hcon
          cases hcon
          refine ⟨?_, ?_⟩
          · simp [clearCart, hpres.2.1]
          · simp [clearCart, orderDiscount, couponOfReq, hcc, hfc]

/-- C1: the atomicity contract fails on the code: a satisfiable single-line
order request carrying no coupon code (the default) makes `process_order`
raise — `v_coupon.id` is read at line 190 although the RECORD `v_coupon` was
never assigned — so the call neither commits nor returns `success = FALSE`;
the raised error aborts the transaction, leaving the state unchanged but
making every coupon-less order impossible. -/
theorem process_order_no_coupon_raises :
    process_order dbOne reqNoCoupon 0 42 =
      .error (.recordNotAssigned "v_coupon") := by decide

/-- C2: validation is batched: when every requested line resolves, all lines
are checked against current stock before any mutation — on a shortfall the
function returns `success = FALSE` with the database unchanged, and the
message carries the label of every insufficient line, not just the first. -/
theorem process_order_batched_validation
    (db : Db) (req : OrderRequest) (now : Int) (oid : Nat)
    (hres : ∀ it ∈ req.items, lineResolves db it = true)
    (hfail : insufficientLabels db req.items ≠ []) :
    process_order db req now oid =
      .ok (⟨false, none, 0, "Insufficient stock for: " ++
        rtrimCommaSpace (labelsConcat (insufficientLabels db req.items))⟩, db) := by
  unfold process_order
  rw [validateLoop_eq_of_resolves db req.items 0 "" hres]
  have hlen : 0 < ("" ++ labelsConcat (insufficientLabels db req.items)).length := by
    cases hL : insufficientLabels db req.items with
    | nil => exact absurd hL hfail
    | cons l ls =>
      have h1 : labelsConcat (l :: ls) = l ++ (", " ++ labelsConcat ls) := by
        simp only [labelsConcat, String.append_assoc]
      have h2 : (", " ++ labelsConcat ls).length = 2 + (labelsConcat ls).length := by
        rw [String.length_append, show (", ").length = 2 from rfl]
      rw [String.empty_append, h1, String.length_append, h2]
      omega
  simp only [String.empty_append] at hlen ⊢
  rw [if_pos hlen]

/-- C2 witness: a two-line request in which both lines overdraw stock. -/
theorem process_order_batched_validation_witness :
    (∀ it ∈ reqShort.items, lineResolves dbTwo it = true) ∧
    insufficientLabels dbTwo reqShort.items ≠ [] ∧
    process_order dbTwo reqShort 0 42 =
      .ok (⟨false, none, 0, "Insufficient stock for: " ++
        rtrimCommaSpace (labelsConcat (insufficientLabels dbTwo reqShort.items))⟩, dbTwo) :=
  ⟨by decide, by decide,
    process_order_batched_validation dbTwo reqShort 0 42 (by decide) (by decide)⟩

/-- C3: every committed order carries
`subtotal = Σ line unit price × quantity`,
`tax = (subtotal − discount) × 0.08` and
`total = subtotal + tax + shipping − discount`. -/
theorem process_order_totals
    (db : Db) (req : OrderRequest) (now : Int) (oid : Nat)
    (r : ProcessOrderResult) (db2 : Db)
    (h : process_order db req now oid = .ok (r, db2))
    (hs : r.success = true) :
    ∃ o ∈ db2.orders, o.id = oid ∧
      o.subtotal = subtotalSpec db req.items ∧
      o.tax_amount = (o.subtotal - o.discount_amount) * (8 / 100) ∧
      o.total_amount = o.subtotal + o.tax_amount + o.shipping_amount
        - o.discount_amount := by
  unfold process_order at h
  split at h
  · rename_i r0 hval
    have hfalse := validateLoop_error_success db req.items 0 "" r0 hval
    cases h
    rw [hfalse] at hs
    cases hs
  · rename_i sub ins hval
    by_cases hi : 0 < ins.length
    · rw [if_pos hi] at h
      cases h
      cases hs
    · rw [if_neg hi] at h
      have hres := resolves_of_validateLoop_ok db req.items 0 "" (sub, ins) hval
      have heq := validateLoop_eq_of_resolves db req.items 0 "" hres
      rw [hval] at heq
      injection heq with heq2
      have hsub : sub = subtotalSpec db req.items := by
        have := congrArg Prod.fst heq2
        simpa using this
      obtain ⟨-, -, hmem, -⟩ := finalizeOrder_spec db req now oid sub r db2 h
      refine ⟨orderRowOf db req now oid sub, hmem, rfl, ?_, ?_, ?_⟩
      · simpa [orderRowOf] using hsub
      · simp [orderRowOf, orderTax]
      · simp [orderRowOf, orderTotal]

/-- C3 witness: a committed order (the unknown coupon code "NOPE" makes the
coupon branch assign `v_coupon` a null row, so the commit succeeds). -/
theorem process_order_totals_witness :
    process_order dbOne reqUnknownCoupon 0 42 = .ok (resultA, dbOneAfter) ∧
    resultA.success = true ∧
    ∃ o ∈ dbOneAfter.orders, o.id = 42 ∧
      o.subtotal = subtotalSpec dbOne reqUnknownCoupon.items ∧
      o.tax_amount = (o.subtotal - o.discount_amount) * (8 / 100) ∧
      o.total_amount = o.subtotal + o.tax_amount + o.shipping_amount
        - o.discount_amount := by
  have hrun : process_order dbOne reqUnknownCoupon 0 42 = .ok (resultA, dbOneAfter) := by
    norm_num [process_order, validateLoop, finalizeOrder, applyLoop, clearCart,
      findActiveProduct, findProductAny, findCoupon, couponMatches, applyCoupon,
      orderNumber, dbOne, dbOneAfter, widget, reqUnknownCoupon, resultA, List.find?]
    rfl
  exact ⟨hrun, rfl,
    process_order_totals dbOne reqUnknownCoupon 0 42 resultA dbOneAfter hrun rfl⟩

/-- C10: a coupon that passes the code/active/window/usage checks but whose
`minimum_amount` exceeds the subtotal still gets its `usage_count`
incremented and a `coupon_usages` row, although the committed order carries
`discount_amount = 0`. -/
theorem process_order_min_coupon_usage
    (db : Db) (req : OrderRequest) (now : Int) (oid : Nat) (code : String)
    (c : Coupon) (r : ProcessOrderResult) (db2 : Db)
    (hcode : req.coupon_code = some code)
    (hc : findCoupon db code now = some c)
    (hmin : subtotalSpec db req.items < c.minimum_amount)
    (h : process_order db req now oid = .ok (r, db2))
    (hs : r.success = true) :
    (∃ o ∈ db2.orders, o.id = oid ∧ o.discount_amount = 0) ∧
    db2.coupons = db.coupons.map
      (fun x => if x.id == c.id then { x with usage_count := x.usage_count + 1 } else x) ∧
    (⟨c.id, oid, req.user_id, 0⟩ : CouponUsageRow) ∈ db2.coupon_usages := by
  unfold process_order at h
  split at h
  · rename_i r0 hval
    have hfalse := validateLoop_error_success db req.items 0 "" r0 hval
    cases h
    rw [hfalse] at hs
    cases hs
  · rename_i sub ins hval
    by_cases hi : 0 < ins.length
    · rw [if_pos hi] at h
      cases h
      cases hs
    · rw [if_neg hi] at h
      have hres := resolves_of_validateLoop_ok db req.items 0 "" (sub, ins) hval
      have heq := validateLoop_eq_of_resolves db req.items 0 "" hres
      rw [hval] at heq
      injection heq with heq2
      have hsub : sub = subtotalSpec db req.items := by
        have := congrArg Prod.fst heq2
        simpa using this
      have hcl : req.coupon_code.map (fun cd => findCoupon db cd now)
          = some (some c) := by
        rw [hcode, Option.map_some', hc]
      have hdisc : orderDiscount db req now sub = 0 := by
        unfold orderDiscount couponOfReq
        rw [hcl]
        show (applyCoupon (some c) sub 10).1 = 0
        simp only [applyCoupon]
        rw [if_neg (by rw [hsub]; exact not_le.mpr hmin)]
      obtain ⟨-, -, hmem, hcoupon⟩ := finalizeOrder_spec db req now oid sub r db2 h
      obtain ⟨hcs, husage⟩ := hcoupon c hcl
      refine ⟨⟨orderRowOf db req now oid sub, hmem, rfl, ?_⟩, hcs, ?_⟩
      · simpa [orderRowOf] using hdisc
      · rw [hdisc] at husage
        exact husage

/-- C10 witness: coupon MIN100 (minimum spend 100) on a subtotal of 5. -/
theorem process_order_min_coupon_usage_witness :
    process_order dbCoupon reqMinCoupon 0 42 = .ok (resultB, dbCouponAfter) ∧
    resultB.success = true ∧
    (∃ o ∈ dbCouponAfter.orders, o.id = 42 ∧ o.discount_amount = 0) ∧
    dbCouponAfter.coupons = dbCoupon.coupons.map
      (fun x => if x.id == minCoupon.id then
        { x with usage_count := x.usage_count + 1 } else x) ∧
    (⟨minCoupon.id, 42, 1, 0⟩ : CouponUsageRow) ∈ dbCouponAfter.coupon_usages := by
  have hrun : process_order dbCoupon reqMinCoupon 0 42 = .ok (resultB, dbCouponAfter) := by
    norm_num [process_order, validateLoop, finalizeOrder, applyLoop, clearCart,
      findActiveProduct, findProductAny, findCoupon, couponMatches, applyCoupon,
      orderNumber, dbCoupon, dbCouponAfter, widget, minCoupon, capCoupon,
      reqMinCoupon, resultB, List.find?]
    rfl
  have hmin : subtotalSpec dbCoupon reqMinCoupon.items < minCoupon.minimum_amount := by
    norm_num [subtotalSpec, lineUnitPrice, findActiveProduct, dbCoupon, widget,
      reqMinCoupon, minCoupon, List.find?]
  have h := process_order_min_coupon_usage dbCoupon reqMinCoupon 0 42 "MIN100" minCoupon
    resultB dbCouponAfter rfl (by decide) hmin hrun rfl
  exact ⟨hrun, rfl, h.1, h.2.1, h.2.2⟩


/-- C5: coupon evaluation: a coupon is only accepted when its code matches
and it is active, inside its validity window and under its usage limit;
every rejection (including an unmet minimum spend) yields no discount and no
error; on acceptance a percentage coupon discounts `value%` of the subtotal,
a fixed-amount coupon discounts `min(value, subtotal)` (never exceeding the
subtotal), and a free-shipping coupon zeroes the shipping charge instead of
producing a monetary discount. -/
theorem coupon_evaluation_cases (db : Db) (code : String) (now : Int)
    (subtotal sh : ℚ) :
    (∀ c, findCoupon db code now = some c →
      c.code = code ∧ c.is_active = true ∧
      (∀ s, c.starts_at = some s → s ≤ now) ∧
      (∀ e, c.expires_at = some e → now ≤ e) ∧
      (∀ l, c.usage_limit = some l → c.usage_count < l)) ∧
    ((∀ c ∈ db.coupons, couponMatches c code now = false) →
      findCoupon db code now = none) ∧
    (applyCoupon none subtotal sh = (0, sh)) ∧
    (∀ c, subtotal < c.minimum_amount →
      applyCoupon (some c) subtotal sh = (0, sh)) ∧
    (∀ c, c.minimum_amount ≤ subtotal → c.type = CouponType.percentage →
      applyCoupon (some c) subtotal sh = (subtotal * (c.value / 100), sh)) ∧
    (∀ c, c.minimum_amount ≤ subtotal → c.type = CouponType.fixed_amount →
      applyCoupon (some c) subtotal sh = (min c.value subtotal, sh) ∧
        min c.value subtotal ≤ subtotal) ∧
    (∀ c, c.minimum_amount ≤ subtotal → c.type = CouponType.free_shipping →
      applyCoupon (some c) subtotal sh = (0, 0)) := by
  refine ⟨?_, ?_, rfl, ?_, ?_, ?_, ?_⟩
  · intro c h
    unfold findCoupon at h
    have hm := List.find?_some h
    unfold couponMatches at hm
    simp only [Bool.and_eq_true, beq_iff_eq, decide_eq_true_eq] at hm
    obtain ⟨⟨⟨⟨hcode, hact⟩, hstart⟩, hexp⟩, huse⟩ := hm
    refine ⟨hcode, hact, ?_, ?_, ?_⟩
    · intro s hs
      rw [hs] at hstart
      simpa using hstart
    · intro e he
      rw [he] at hexp
      simpa using hexp
    · intro l hl
      rw [hl] at huse
      simpa using huse
  · intro hall
    unfold findCoupon
    exact List.find?_eq_none.mpr fun c hc => by simp [hall c hc]
  · intro c hlt
    simp only [applyCoupon]
    rw [if_neg (not_le.mpr hlt)]
  · intro c hle hty
    simp only [applyCoupon, if_pos hle, hty]
  · intro c hle hty
    exact ⟨by simp only [applyCoupon, if_pos hle, hty], min_le_right _ _⟩
  · intro c hle hty
    simp only [applyCoupon, if_pos hle, hty]

/-- C5 witness: the fixed-amount coupon CAP30 (value 30) on a subtotal of 20
discounts 20, not 30; plus an acceptance instance for the lookup direction. -/
theorem coupon_evaluation_cases_witness :
    applyCoupon (some capCoupon) 20 10 = (min capCoupon.value 20, 10) ∧
    min capCoupon.value 20 ≤ 20 ∧ min capCoupon.value 20 = 20 := by
  have h := (coupon_evaluation_cases dbCoupon "CAP30" 0 20 10).2.2.2.2.2.1
    capCoupon (by norm_num [capCoupon]) rfl
  exact ⟨h.1, h.2, by norm_num [capCoupon]⟩


/-- C4: the pricing formula never reaches the caller: on the §8 scenario
inputs (stock 5 ≤ threshold 10, 12 trailing-week sale rows, lifetime spend
1200, December, base 100) `calculate_dynamic_price` raises
`cannot set path in scalar` — the demand `SELECT … INTO` overwrites
`v_factors` with a scalar string and `jsonb_set` is then applied to it —
instead of returning the rounded price 109.37. -/
theorem calculate_dynamic_price_raises :
    calculate_dynamic_price priceDb priceProd (some 9) 100 12 =
      .error .cannotSetPathInScalar := by rfl

/-- C9: on a product where both an inventory condition (low stock) and a
demand condition (low demand) fire, the factors output cannot contain both
labels: the demand step replaces the object holding the inventory label by
the bare demand label string, and the function then raises. -/
theorem dynamic_price_factor_labels_lost :
    calculate_dynamic_price priceDb2 priceProd2 none 100 6 =
      .error .cannotSetPathInScalar := by rfl


theorem filter_key_nil (κ : Product → Nat × String × ℚ × ℚ)
    (hκ : ∀ x, (κ x).1 = x.id) (q : Product) (g : Product → List RecRow)
    (hg : ∀ x, ∀ r ∈ g x, recKey r = κ x) (l : List Product)
    (hl : ∀ x ∈ l, x.id ≠ q.id) :
    (l.flatMap g).filter (fun r => recKey r == κ q) = [] := by
  rw [List.filter_eq_nil_iff]
  intro r hr hbe
  obtain ⟨x, hx, hrx⟩ := List.mem_flatMap.mp hr
  have hk : κ x = κ q := by rw [← hg x r hrx]; exact eq_of_beq hbe
  exact hl x hx (by rw [← hκ x, ← hκ q, hk])

theorem filter_key_flatMap (κ : Product → Nat × String × ℚ × ℚ)
    (hκ : ∀ x, (κ x).1 = x.id) (q : Product) (p : Product → Bool)
    (g : Product → List RecRow)
    (hg : ∀ x, ∀ r ∈ g x, recKey r = κ x) :
    ∀ (l : List Product), (l.map Product.id).Nodup → q ∈ l →
      ((l.filter p).flatMap g).filter (fun r => recKey r == κ q)
        = if p q then g q else []
  | [], _, hq => absurd hq (List.not_mem_nil q)
  | a :: l, hnd, hq => by
      have hnd0 : (Product.id a :: l.map Product.id).Nodup := by simpa using hnd
      have hnd2 : (l.map Product.id).Nodup := (List.nodup_cons.mp hnd0).2
      have hnotin : a.id ∉ l.map Product.id := (List.nodup_cons.mp hnd0).1
      rcases List.mem_cons.mp hq with rfl | hql
      · have hlne : ∀ x ∈ l, x.id ≠ q.id := by
          intro x hx he
          exact hnotin (he ▸ List.mem_map_of_mem Product.id hx)
        rw [List.filter_cons]
        by_cases hpa : p q = true
        · rw [if_pos hpa, List.flatMap_cons, List.filter_append]
          have h1 : (g q).filter (fun r => recKey r == κ q) = g q := by
            rw [List.filter_eq_self]
            intro r hr
            rw [hg q r hr]
            exact beq_self_eq_true _
          have h2 : ((l.filter p).flatMap g).filter (fun r => recKey r == κ q) = [] :=
            filter_key_nil κ hκ q g hg _ fun x hx => hlne x (List.mem_filter.mp hx).1
          rw [h1, h2, List.append_nil, if_pos hpa]
        · rw [if_neg hpa, if_neg hpa]
          exact filter_key_nil κ hκ q g hg _ fun x hx => hlne x (List.mem_filter.mp hx).1
      · have hane : a.id ≠ q.id := by
          intro he
          exact hnotin (he ▸ List.mem_map_of_mem Product.id hql)
        rw [List.filter_cons]
        by_cases hpa : p a = true
        · rw [if_pos hpa, List.flatMap_cons, List.filter_append]
          have h1 : (g a).filter (fun r => recKey r == κ q) = [] := by
            rw [List.filter_eq_nil_iff]
            intro r hr hbe
            have hk : κ a = κ q := by rw [← hg a r hr]; exact eq_of_beq hbe
            exact hane (by rw [← hκ a, ← hκ q, hk])
          rw [h1, List.nil_append]
          exact filter_key_flatMap κ hκ q p g hg l hnd2 hql
        · rw [if_neg hpa]
          exact filter_key_flatMap κ hκ q p g hg l hnd2 hql

theorem filter_eq_singleton_of_nodup :
    ∀ (l : List Product), (l.map Product.id).Nodup → ∀ (q : Product), q ∈ l →
      ∀ (p : Product → Bool), p q = true → (∀ x, p x = true → x.id = q.id) →
      l.filter p = [q]
  | [], _, q, hq, _, _, _ => absurd hq (List.not_mem_nil q)
  | a :: l, hnd, q, hq, p, hpq, hid => by
      have hnd0 : (Product.id a :: l.map Product.id).Nodup := by simpa using hnd
      have hnd2 : (l.map Product.id).Nodup := (List.nodup_cons.mp hnd0).2
      have hnotin : a.id ∉ l.map Product.id := (List.nodup_cons.mp hnd0).1
      rw [List.filter_cons]
      rcases List.mem_cons.mp hq with rfl | hql
      · rw [if_pos hpq]
        have h0 : l.filter p = [] := by
          rw [List.filter_eq_nil_iff]
          intro x hx hpx
          exact hnotin ((hid x hpx) ▸ List.mem_map_of_mem Product.id hx)
        rw [h0]
      · have hane : a.id ≠ q.id := by
          intro he
          exact hnotin (he ▸ List.mem_map_of_mem Product.id hql)
        have hpa : ¬ p a = true := fun hpa => hane (hid a hpa)
        rw [if_neg hpa]
        exact filter_eq_singleton_of_nodup l hnd2 q hql p hpq hid

theorem fbtGroupCount_eq_one (db : Db) (pid : Nat) (q : Product)
    (hnd : (db.products.map Product.id).Nodup) (hq : q ∈ db.products)
    (hcand : (q.is_active && coPurchased db pid q.id) = true) :
    fbtGroupCount db pid q = 1 := by
  unfold fbtGroupCount
  rw [List.filter_filter]
  rw [filter_eq_singleton_of_nodup db.products hnd q hq _ ?hq ?hid]
  · rfl
  case hq =>
    have h1 : q.is_active = true ∧ coPurchased db pid q.id = true := by
      simpa using hcand
    simp [h1.1, h1.2]
  case hid =>
    intro x hx
    simp only [Bool.and_eq_true] at hx
    exact eq_of_beq hx.1.1.1.1

theorem userG_key (db : Db) (uid : Nat) (x : Product) (r : RecRow)
    (hr : r ∈ if (((user_preferences db uid).filter fun k =>
        k.1 == x.category_id || k.2.1 == x.brand_id).isEmpty) then
        [(⟨x.id, x.name, x.price, avgRating db x.id, some 2,
          "Based on your preferences"⟩ : RecRow)]
      else ((user_preferences db uid).filter fun k =>
        k.1 == x.category_id || k.2.1 == x.brand_id).map fun k =>
        ⟨x.id, x.name, x.price, avgRating db x.id,
          some (2 + (k.2.2 : ℚ) * (3 / 10)), "Based on your preferences"⟩) :
    recKey r = recKeyOf db x := by
  split at hr
  · rw [List.mem_singleton.mp hr]; rfl
  · obtain ⟨k, hk, rfl⟩ := List.mem_map.mp hr
    rfl

theorem mem_similar_products (db : Db) (pid? : Option Nat) (row : RecRow)
    (h : row ∈ similar_products db pid?) :
    ∃ q ∈ db.products, recKey row = recKeyOf db q := by
  cases pid? with
  | none => exact absurd h (List.not_mem_nil row)
  | some pid =>
    simp only [similar_products] at h
    cases hfind : db.products.find? fun x => x.id == pid with
    | none =>
      rw [hfind] at h
      exact absurd h (List.not_mem_nil row)
    | some vp =>
      rw [hfind] at h
      obtain ⟨x, hx, rfl⟩ := List.mem_map.mp h
      exact ⟨x, (List.mem_filter.mp hx).1, rfl⟩

theorem mem_fbt (db : Db) (pid? : Option Nat) (row : RecRow)
    (h : row ∈ frequently_bought_together db pid?) :
    ∃ q ∈ db.products, recKey row = recKeyOf db q := by
  cases pid? with
  | none => exact absurd h (List.not_mem_nil row)
  | some pid =>
    obtain ⟨x, hx, rfl⟩ := List.mem_map.mp h
    exact ⟨x, (List.mem_filter.mp hx).1, rfl⟩

theorem mem_user_based (db : Db) (uid? pid? : Option Nat) (row : RecRow)
    (h : row ∈ user_based db uid? pid?) :
    ∃ q ∈ db.products, recKey row = recKeyOf db q := by
  cases uid? with
  | none => exact absurd h (List.not_mem_nil row)
  | some uid =>
    obtain ⟨x, hx, hrow⟩ := List.mem_flatMap.mp h
    exact ⟨x, (List.mem_filter.mp hx).1, userG_key db uid x row hrow⟩

theorem mem_trending (db : Db) (pid? : Option Nat) (today : Int) (row : RecRow)
    (h : row ∈ trending_products db pid? today) :
    ∃ q ∈ db.products, recKey row = recKeyOf db q := by
  obtain ⟨x, hx, rfl⟩ := List.mem_map.mp h
  exact ⟨x, (List.mem_filter.mp hx).1, rfl⟩

theorem recKey_mem_products (db : Db) (uid? pid? : Option Nat) (today : Int)
    (row : RecRow) (hrow : row ∈ all_recommendations db uid? pid? today) :
    ∃ q ∈ db.products, recKey row = recKeyOf db q := by
  unfold all_recommendations at hrow
  rcases List.mem_append.mp hrow with h3 | h4
  · rcases List.mem_append.mp h3 with h2 | hu
    · rcases List.mem_append.mp h2 with hs | hf
      · exact mem_similar_products db pid? row hs
      · exact mem_fbt db pid? row hf
    · exact mem_user_based db uid? pid? row hu
  · exact mem_trending db pid? today row h4

theorem group_rows_eq (db : Db) (uid? pid? : Option Nat) (today : Int)
    (q : Product) (hnd : (db.products.map Product.id).Nodup)
    (hq : q ∈ db.products) :
    (all_recommendations db uid? pid? today).filter
      (fun r => recKey r == recKeyOf db q) = contribRows db uid? pid? today q := by
  have hκ : ∀ x : Product, (recKeyOf db x).1 = x.id := fun x => rfl
  have hsim : (similar_products db pid?).filter
      (fun r => recKey r == recKeyOf db q) = simContrib db pid? q := by
    cases pid? with
    | none => rfl
    | some pid =>
      cases hfind : db.products.find? fun x => x.id == pid with
      | none =>
        simp only [similar_products, simContrib, hfind, List.filter_nil]
      | some vp =>
        simp only [similar_products, simContrib, hfind]
        rw [List.map_eq_flatMap]
        exact filter_key_flatMap (recKeyOf db) hκ q _ _
          (fun x r hr => by rw [List.mem_singleton.mp hr]; rfl) db.products hnd hq
  have hfbt : (frequently_bought_together db pid?).filter
      (fun r => recKey r == recKeyOf db q) = fbtContrib db pid? q := by
    cases pid? with
    | none => rfl
    | some pid =>
      simp only [frequently_bought_together, fbtContrib]
      rw [List.map_eq_flatMap]
      rw [filter_key_flatMap (recKeyOf db) hκ q _ _
        (fun x r hr => by rw [List.mem_singleton.mp hr]; rfl) db.products hnd hq]
      by_cases hc : (q.is_active && coPurchased db pid q.id) = true
      · rw [if_pos hc, if_pos hc, fbtGroupCount_eq_one db pid q hnd hq hc]
        norm_num
      · rw [if_neg hc, if_neg hc]
  have huser : (user_based db uid? pid?).filter
      (fun r => recKey r == recKeyOf db q) = userContrib db uid? pid? q := by
    cases uid? with
    | none => rfl
    | some uid =>
      simp only [user_based, userContrib]
      exact filter_key_flatMap (recKeyOf db) hκ q _ _
        (fun x r hr => userG_key db uid x r hr) db.products hnd hq
  have htrend : (trending_products db pid? today).filter
      (fun r => recKey r == recKeyOf db q) = trendContrib db pid? today q := by
    unfold trending_products trendContrib
    rw [List.map_eq_flatMap]
    exact filter_key_flatMap (recKeyOf db) hκ q _ _
      (fun x r hr => by rw [List.mem_singleton.mp hr]; rfl) db.products hnd hq
  unfold all_recommendations contribRows
  rw [List.filter_append, List.filter_append, List.filter_append,
    hsim, hfbt, huser, htrend]

theorem sum_map_indicator {β : Type} [DecidableEq β] :
    ∀ (D : List β), D.Nodup → ∀ (b : β), b ∈ D → ∀ (q : ℚ),
      (D.map fun d => if b == d then q else 0).sum = q
  | [], _, b, hb, _ => absurd hb (List.not_mem_nil b)
  | d :: D, hD, b, hb, q => by
      have hnd := List.nodup_cons.mp hD
      rcases List.mem_cons.mp hb with rfl | hbD
      · have h0 : ∀ x ∈ D.map fun d2 => if b == d2 then q else 0, x = 0 := by
          intro x hx
          obtain ⟨d2, hd2, rfl⟩ := List.mem_map.mp hx
          have hne : ¬(b == d2) = true := by
            intro hbe
            exact hnd.1 (by rw [eq_of_beq hbe]; exact hd2)
          rw [if_neg hne]
        rw [List.map_cons, List.sum_cons, if_pos (beq_self_eq_true b),
          List.sum_eq_zero h0, add_zero]
      · have hne : ¬(b == d) = true := by
          intro hbe
          exact hnd.1 (by rw [← eq_of_beq hbe]; exact hbD)
        simp only [List.map_cons, List.sum_cons, if_neg hne]
        rw [sum_map_indicator D hnd.2 b hbD q, zero_add]

theorem sum_over_groups {α β : Type} [DecidableEq β] (k : α → β) (w : α → ℚ) :
    ∀ (L : List α) (D : List β), D.Nodup → (∀ x ∈ L, k x ∈ D) →
      (D.map fun d => ((L.filter fun x => k x == d).map w).sum).sum = (L.map w).sum
  | [], D, _, _ => by simp
  | x :: L, D, hD, hcov => by
      have hcovL : ∀ y ∈ L, k y ∈ D := fun y hy => hcov y (List.mem_cons_of_mem _ hy)
      have hx : k x ∈ D := hcov x (List.mem_cons_self x L)
      have hsplit : ∀ d ∈ D, (((x :: L).filter fun y => k y == d).map w).sum
          = (if k x == d then w x else 0)
            + ((L.filter fun y => k y == d).map w).sum := by
        intro d _
        by_cases hd : (k x == d) = true
        · simp only [List.filter_cons, hd, if_pos, List.map_cons, List.sum_cons]
        · simp only [List.filter_cons, hd, if_neg, Bool.false_eq_true, ite_false, zero_add]
      calc (D.map fun d => (((x :: L).filter fun y => k y == d).map w).sum).sum
          = (D.map fun d => (if k x == d then w x else 0)
              + ((L.filter fun y => k y == d).map w).sum).sum := by
            rw [List.map_congr_left hsplit]
        _ = (D.map fun d => if k x == d then w x else 0).sum
              + (D.map fun d => ((L.filter fun y => k y == d).map w).sum).sum := by
            rw [← List.sum_map_add]
        _ = w x + (L.map w).sum := by
            rw [sum_map_indicator D hD (k x) hx, sum_over_groups k w L D hD hcovL]
        _ = ((x :: L).map w).sum := by simp

theorem sum_dailyQty_eq_unitsSold (db : Db) (pid : Nat) (today : Int) :
    ((saleDates db pid today).map fun d => dailyQty db pid today d).sum
      = unitsSold30 db pid today := by
  have hfilter : ∀ d, ((paidWindowPairs db today).filter fun pr =>
      pr.2.created_at == d && pr.1.product_id == pid)
      = (((paidWindowPairs db today).filter fun pr =>
          pr.1.product_id == pid).filter fun pr => pr.2.created_at == d) := by
    intro d
    rw [List.filter_filter]
  have hmap : (saleDates db pid today).map (fun d => dailyQty db pid today d)
      = (saleDates db pid today).map fun d =>
        (((((paidWindowPairs db today).filter fun pr =>
          pr.1.product_id == pid)).filter fun pr => pr.2.created_at == d).map
            fun pr => (pr.1.quantity : ℚ)).sum := by
    refine List.map_congr_left fun d _ => ?_
    unfold dailyQty
    rw [hfilter d]
  rw [hmap]
  exact sum_over_groups (fun pr => pr.2.created_at) (fun pr => (pr.1.quantity : ℚ))
    ((paidWindowPairs db today).filter fun pr => pr.1.product_id == pid)
    (saleDates db pid today) (List.nodup_dedup _)
    (fun x hx => List.mem_dedup.mpr (List.mem_map_of_mem _ hx))

theorem avg_daily_sales_formula (db : Db) (pid : Nat) (today : Int) :
    avg_daily_sales db pid today =
      if saleDates db pid today = [] then 0
      else unitsSold30 db pid today / (saleDates db pid today).length := by
  show (if (saleDates db pid today).isEmpty = true then (0 : ℚ)
      else ((saleDates db pid today).map fun d => dailyQty db pid today d).sum
        / (saleDates db pid today).length) = _
  rw [sum_dailyQty_eq_unitsSold]
  by_cases h : saleDates db pid today = []
  · simp [h]
  · simp [h, List.isEmpty_iff]


/-- C6 counterexample: one paid sale of 30 units on a single day of the
trailing 30: the report credits the product with `avg_daily_sales = 30`
(AVG over the days that had sales), while the claim's mean-over-30-days
with zero days counted gives 1. -/
theorem reorder_avg_counterexample :
    avg_daily_sales reorderDb 3 30 = 30 ∧
    claimAvg30 reorderDb 3 30 = 1 ∧
    (calculate_reorder_points reorderDb 30).map ReorderRow.avg_daily_sales = [30] ∧
    (30 : ℚ) ≠ 1 := by
  refine ⟨?_, ?_, ?_, by norm_num⟩
  · norm_num [avg_daily_sales, saleDates, dailyQty, paidWindowPairs, reorderDb,
      reorderProd, List.dedup]
  · norm_num [claimAvg30, unitsSold30, paidWindowPairs, reorderDb, reorderProd]
  · norm_num [calculate_reorder_points, mkSalesData, projectReorder, reorderDb,
      reorderProd, List.insertionSort, List.orderedInsert, avg_daily_sales,
      saleDates, dailyQty, paidWindowPairs, List.dedup, pgRound2, pgRoundInt]

/-- C6 (amended): for every trackable, active product the report row carries
`avg_daily_sales = ROUND2(units sold / number of days with sales)` (0 with no
sales — days without sales are excluded from the mean), `safety_stock =
round(max(avg × 3, 5))`, `lead_time_days = 7`, `reorder_point =
round(avg × 7 + safety)`, `suggested_order_quantity = max(round(avg × 30),
10)`, and the urgency classes CRITICAL/HIGH/MEDIUM/LOW in priority order
against the unrounded reorder point. -/
theorem calculate_reorder_points_spec (db : Db) (today : Int) (p : Product)
    (hp : p ∈ db.products) (hact : p.is_active = true)
    (htr : p.track_inventory = true) :
    ∃ row ∈ calculate_reorder_points db today,
      row.product_id = p.id ∧ row.product_name = p.name ∧
      row.current_stock = p.inventory_quantity ∧ row.lead_time_days = 7 ∧
      row.avg_daily_sales = pgRound2 (salesDayAvg db p.id today) ∧
      row.safety_stock = pgRoundInt (safetyStockSpec db p.id today) ∧
      row.reorder_point = pgRoundInt (reorderPointSpec db p.id today) ∧
      row.suggested_order_quantity
        = max (pgRoundInt (salesDayAvg db p.id today * 30)) 10 ∧
      (p.inventory_quantity ≤ 0 →
        row.urgency_level = "CRITICAL - Out of Stock") ∧
      (0 < p.inventory_quantity →
        (p.inventory_quantity : ℚ) ≤ reorderPointSpec db p.id today * (1 / 2) →
        row.urgency_level = "HIGH - Immediate Reorder") ∧
      (0 < p.inventory_quantity →
        ¬(p.inventory_quantity : ℚ) ≤ reorderPointSpec db p.id today * (1 / 2) →
        (p.inventory_quantity : ℚ) ≤ reorderPointSpec db p.id today →
        row.urgency_level = "MEDIUM - Reorder Soon") ∧
      (0 < p.inventory_quantity →
        ¬(p.inventory_quantity : ℚ) ≤ reorderPointSpec db p.id today →
        row.urgency_level = "LOW - Monitor") := by
  have havg : avg_daily_sales db p.id today = salesDayAvg db p.id today :=
    avg_daily_sales_formula db p.id today
  have hsd : mkSalesData db today p ∈
      (db.products.filter fun q => q.is_active && q.track_inventory).map
        (mkSalesData db today) :=
    List.mem_map_of_mem _ (List.mem_filter.mpr ⟨hp, by simp [hact, htr]⟩)
  have hsort := (List.mem_insertionSort reorderLE).mpr hsd
  have hrpq : reorderPointQ (mkSalesData db today p)
      = reorderPointSpec db p.id today := by
    unfold reorderPointQ mkSalesData reorderPointSpec safetyStockSpec
    rw [havg]
    norm_num
  refine ⟨projectReorder (mkSalesData db today p),
    List.mem_map_of_mem projectReorder hsort, rfl, rfl, rfl, rfl, ?_, ?_, ?_, ?_,
    ?_, ?_, ?_, ?_⟩
  · unfold projectReorder mkSalesData
    rw [havg]
  · unfold projectReorder mkSalesData safetyStockSpec
    rw [havg]
  · unfold projectReorder
    rw [hrpq]
  · unfold projectReorder mkSalesData
    rw [havg]
  · intro hcrit
    unfold projectReorder mkSalesData
    simp only [if_pos hcrit]
  · intro hpos hhigh
    have hcs : (mkSalesData db today p).current_stock = p.inventory_quantity := rfl
    unfold projectReorder
    rw [hrpq, hcs]
    simp only [if_neg (not_le.mpr hpos), if_pos hhigh]
  · intro hpos hnh hmed
    have hcs : (mkSalesData db today p).current_stock = p.inventory_quantity := rfl
    unfold projectReorder
    rw [hrpq, hcs]
    simp only [if_neg (not_le.mpr hpos), if_neg hnh, if_pos hmed]
  · intro hpos hlow
    have hcs : (mkSalesData db today p).current_stock = p.inventory_quantity := rfl
    unfold projectReorder
    rw [hrpq, hcs]
    have hnh : ¬(p.inventory_quantity : ℚ)
        ≤ reorderPointSpec db p.id today * (1 / 2) := by
      intro hc
      apply hlow
      have hq : (0 : ℚ) < (p.inventory_quantity : ℚ) := by exact_mod_cast hpos
      linarith [hq, hc]
    simp only [if_neg (not_le.mpr hpos), if_neg hnh, if_neg hlow]

/-- C6 witness: the amended row formulas at the one-sale-day scenario. -/
theorem calculate_reorder_points_spec_witness :
    ∃ row ∈ calculate_reorder_points reorderDb 30,
      row.product_id = reorderProd.id ∧ row.product_name = reorderProd.name ∧
      row.current_stock = reorderProd.inventory_quantity ∧
      row.lead_time_days = 7 ∧
      row.avg_daily_sales = pgRound2 (salesDayAvg reorderDb reorderProd.id 30) ∧
      row.safety_stock = pgRoundInt (safetyStockSpec reorderDb reorderProd.id 30) ∧
      row.reorder_point = pgRoundInt (reorderPointSpec reorderDb reorderProd.id 30) ∧
      row.suggested_order_quantity
        = max (pgRoundInt (salesDayAvg reorderDb reorderProd.id 30 * 30)) 10 ∧
      (reorderProd.inventory_quantity ≤ 0 →
        row.urgency_level = "CRITICAL - Out of Stock") ∧
      (0 < reorderProd.inventory_quantity →
        (reorderProd.inventory_quantity : ℚ)
          ≤ reorderPointSpec reorderDb reorderProd.id 30 * (1 / 2) →
        row.urgency_level = "HIGH - Immediate Reorder") ∧
      (0 < reorderProd.inventory_quantity →
        ¬(reorderProd.inventory_quantity : ℚ)
          ≤ reorderPointSpec reorderDb reorderProd.id 30 * (1 / 2) →
        (reorderProd.inventory_quantity : ℚ)
          ≤ reorderPointSpec reorderDb reorderProd.id 30 →
        row.urgency_level = "MEDIUM - Reorder Soon") ∧
      (0 < reorderProd.inventory_quantity →
        ¬(reorderProd.inventory_quantity : ℚ)
          ≤ reorderPointSpec reorderDb reorderProd.id 30 →
        row.urgency_level = "LOW - Monitor") :=
  calculate_reorder_points_spec reorderDb 30 reorderProd
    (by simp [reorderDb]) rfl rfl

/-- C7 (amended): the recommendation list is sorted descending by final
score (NULL scores first, as DESC ordering places them) and truncated to the
requested count, and every returned row belongs to a product of the
database whose score is the SUM of the base scores it actually receives —
3.0 for same-category similarity, the CONSTANT 4.5 for co-purchase (the
`COUNT(*)` of lines 258 and 274 counts the single joined row of the group,
never the number of co-orders), 2.0 (no matching preference group) or
2.0 + 0.3 × group count for a known customer, and 1.0 + 0.1 × recent paid
orders for trending only when that count is nonzero (otherwise the SUM
skips the NULL row) — plus the rating bonus rating × 0.5, rounded to two
decimals, NULL when every source row is NULL. -/
theorem get_product_recommendations_spec (db : Db) (uid? pid? : Option Nat)
    (lim : Nat) (today : Int) (hnd : (db.products.map Product.id).Nodup) :
    List.Sorted recLE (get_product_recommendations db uid? pid? lim today) ∧
    (get_product_recommendations db uid? pid? lim today).length ≤ lim ∧
    ∀ r ∈ get_product_recommendations db uid? pid? lim today,
      ∃ q ∈ db.products,
        r.product_id = q.id ∧ r.product_name = q.name ∧ r.price = q.price ∧
        r.avg_rating = pgRound2 (avgRating db q.id) ∧
        r.recommendation_score
          = (sumOpt ((contribRows db uid? pid? today q).map RecRow.base_score)).map
            fun s => pgRound2 (s + avgRating db q.id * (1 / 2)) := by
  refine ⟨?_, ?_, ?_⟩
  · exact List.Pairwise.sublist (List.take_sublist lim _)
      (List.sorted_insertionSort recLE _)
  · exact List.length_take_le lim _
  · intro r hr
    have hr2 : r ∈ (scored_recommendations db uid? pid? today).insertionSort recLE :=
      (List.take_sublist lim _).subset hr
    have hr3 : r ∈ scored_recommendations db uid? pid? today :=
      (List.mem_insertionSort recLE).mp hr2
    obtain ⟨k, hk, hrk⟩ := List.mem_map.mp hr3
    have hk2 : k ∈ (all_recommendations db uid? pid? today).map recKey :=
      List.mem_dedup.mp hk
    obtain ⟨row, hrowmem, hkey⟩ := List.mem_map.mp hk2
    obtain ⟨q, hqmem, hkq⟩ := recKey_mem_products db uid? pid? today row hrowmem
    have hkk : k = recKeyOf db q := by rw [← hkey, hkq]
    refine ⟨q, hqmem, ?_, ?_, ?_, ?_, ?_⟩
    · rw [← hrk]
      show k.1 = q.id
      rw [hkk]
      rfl
    · rw [← hrk]
      show k.2.1 = q.name
      rw [hkk]
      rfl
    · rw [← hrk]
      show k.2.2.1 = q.price
      rw [hkk]
      rfl
    · rw [← hrk]
      show pgRound2 k.2.2.2 = pgRound2 (avgRating db q.id)
      rw [hkk]
      rfl
    · rw [← hrk]
      show (sumOpt (((all_recommendations db uid? pid? today).filter
          fun x => recKey x == k).map RecRow.base_score)).map
            (fun s => pgRound2 (s + k.2.2.2 * (1 / 2)))
        = (sumOpt ((contribRows db uid? pid? today q).map RecRow.base_score)).map
            fun s => pgRound2 (s + avgRating db q.id * (1 / 2))
      rw [hkk, group_rows_eq db uid? pid? today q hnd hqmem]
      rfl

/-- Instantiation of the amended recommendation theorem at the concrete
co-purchase database. -/
theorem get_product_recommendations_spec_witness :
    List.Sorted recLE (get_product_recommendations recDb none (some 1) 5 100) ∧
    (get_product_recommendations recDb none (some 1) 5 100).length ≤ 5 ∧
    ∀ r ∈ get_product_recommendations recDb none (some 1) 5 100,
      ∃ q ∈ recDb.products,
        r.product_id = q.id ∧ r.product_name = q.name ∧ r.price = q.price ∧
        r.avg_rating = pgRound2 (avgRating recDb q.id) ∧
        r.recommendation_score
          = (sumOpt ((contribRows recDb none (some 1) 100 q).map
              RecRow.base_score)).map
            fun s => pgRound2 (s + avgRating recDb q.id * (1 / 2)) :=
  get_product_recommendations_spec recDb none (some 1) 5 100 (by decide)

/-- C7 counterexample to the claimed co-purchase formula: products 1 and 2
are bought together in three distinct orders, so the claim predicts a
co-purchase base of 4.0 + 0.5 × 3 = 5.5 for candidate 2, yet the function
returns score 4.5 — `COUNT(*)` counts the one joined row of the group, not
the co-orders. -/
theorem rec_score_counterexample :
    coOrderCount recDb 1 2 = 3 ∧
    (get_product_recommendations recDb none (some 1) 5 100).map
      (fun r => (r.product_id, r.recommendation_score)) = [(2, some (9 / 2))] ∧
    (9 : ℚ) / 2
      ≠ pgRound2 (4 + (coOrderCount recDb 1 2 : ℚ) * (1 / 2)
          + avgRating recDb 2 * (1 / 2)) := by
  refine ⟨by decide, ?_, ?_⟩
  · norm_num [get_product_recommendations, scored_recommendations,
      all_recommendations, similar_products, frequently_bought_together,
      user_based, trending_products, recentOrderCount, coPurchased,
      fbtGroupCount, avgRating, sumOpt, recKey, pgRound2, pgRoundInt,
      recDb, recProdA, recProdB, List.find?, List.insertionSort,
      List.orderedInsert, List.dedup, recLEb]
    refine ⟨9 / 2, ⟨by simp, by norm_num [List.filterMap]⟩, ?_⟩
    rw [if_pos (by norm_num : (0 : ℚ) ≤ 9 / 2)]
    norm_num
  · have hco : coOrderCount recDb 1 2 = 3 := by decide
    have hav : avgRating recDb 2 = 0 := rfl
    rw [hco, hav]
    norm_num [pgRound2, pgRoundInt]

end Sql

namespace Mongo

theorem totalQty_cons (it : MOrderItem) (rest : List MOrderItem) (pid : Nat) :
    totalQty (it :: rest) pid
      = (if it.productId == pid then it.quantity else 0) + totalQty rest pid := by
  unfold totalQty
  rw [List.filter_cons]
  by_cases h : (it.productId == pid) = true
  · simp [h]
  · simp [h]

theorem totalQty_nonneg (items : List MOrderItem) (pid : Nat)
    (h : ∀ it ∈ items, 0 ≤ it.quantity) : 0 ≤ totalQty items pid := by
  refine List.sum_nonneg ?_
  intro x hx
  obtain ⟨it, hit, rfl⟩ := List.mem_map.mp hx
  exact h it (List.mem_filter.mp hit).1

theorem releaseItems_spec :
    ∀ (items : List MOrderItem) (store : List MProduct),
      (store.map MProduct.id).Nodup →
      (∀ p ∈ store, invariantHolds p) →
      (∀ it ∈ items, 0 ≤ it.quantity) →
      (∀ p ∈ store, totalQty items p.id ≤ p.reserved) →
      releaseItems store items
        = .ok (store.map fun p => applyRelease p (totalQty items p.id))
  | [], store, hnd, hinv, hq, hbound => by
      unfold releaseItems
      have hmap : (store.map fun p => applyRelease p (totalQty [] p.id)) = store := by
        conv_rhs => rw [← List.map_id store]
        refine List.map_congr_left fun p hp => ?_
        obtain ⟨h1, h2, h3, h4⟩ := hinv p hp
        simp only [applyRelease, totalQty, List.filter_nil, List.map_nil,
          List.sum_nil, id_eq]
        cases p with
        | mk i qn rs av =>
          simp only at h1
          simp only [MProduct.mk.injEq, true_and]
          omega
      rw [hmap]
  | it :: rest, store, hnd, hinv, hq, hbound => by
      have hq_rest : ∀ x ∈ rest, 0 ≤ x.quantity := fun x hx =>
        hq x (List.mem_cons_of_mem _ hx)
      have hq_it : 0 ≤ it.quantity := hq it (List.mem_cons_self it rest)
      unfold releaseItems
      cases hf : findProduct store it.productId with
      | none =>
        show releaseItems store rest
          = .ok (store.map fun p => applyRelease p (totalQty (it :: rest) p.id))
        have hf2 : store.find? (fun p => p.id == it.productId) = none := hf
        have hnone := List.find?_eq_none.mp hf2
        have hcount : ∀ p ∈ store, totalQty (it :: rest) p.id = totalQty rest p.id := by
          intro p hp
          have hne : it.productId ≠ p.id := by
            intro he
            exact hnone p hp (by simp [he])
          rw [totalQty_cons, if_neg (by simp [hne]), zero_add]
        have hbound2 : ∀ p ∈ store, totalQty rest p.id ≤ p.reserved := fun p hp =>
          hcount p hp ▸ hbound p hp
        rw [releaseItems_spec rest store hnd hinv hq_rest hbound2]
        congr 1
        exact (List.map_congr_left fun p hp => by rw [hcount p hp]).symm
      | some p0 =>
        show (match save { p0 with reserved := p0.reserved - it.quantity } with
          | none => Except.error ("ValidationError", store)
          | some p2 => releaseItems (saveInStore store p2) rest)
          = .ok (store.map fun p => applyRelease p (totalQty (it :: rest) p.id))
        have hf2 : store.find? (fun p => p.id == it.productId) = some p0 := hf
        have hp0mem : p0 ∈ store := List.mem_of_find?_eq_some hf2
        have hbeq := List.find?_some hf2
        have hp0id : p0.id = it.productId := eq_of_beq hbeq
        obtain ⟨h1, h2, h3, h4⟩ := hinv p0 hp0mem
        have htot0 : totalQty (it :: rest) p0.id = it.quantity + totalQty rest p0.id := by
          rw [totalQty_cons, if_pos (by simp [hp0id])]
        have htrest0 : 0 ≤ totalQty rest p0.id := totalQty_nonneg rest p0.id hq_rest
        have hbound0 := hbound p0 hp0mem
        rw [htot0] at hbound0
        have hcond : (decide (0 ≤ p0.quantity)
            && decide (0 ≤ p0.reserved - it.quantity)
            && decide (0 ≤ p0.available)) = true := by
          simp only [Bool.and_eq_true, decide_eq_true_eq]
          refine ⟨⟨h4, ?_⟩, ?_⟩ <;> omega
        have hsave : save { p0 with reserved := p0.reserved - it.quantity }
            = some (applyRelease p0 it.quantity) := by
          simp only [save, applyRelease, hcond]
          rfl
        rw [hsave]
        show releaseItems (saveInStore store (applyRelease p0 it.quantity)) rest
          = .ok (store.map fun p => applyRelease p (totalQty (it :: rest) p.id))
        have hp2id : (applyRelease p0 it.quantity).id = p0.id := rfl
        have hidmap : ((saveInStore store (applyRelease p0 it.quantity)).map
            MProduct.id) = store.map MProduct.id := by
          unfold saveInStore
          rw [List.map_map]
          refine List.map_congr_left fun x hx => ?_
          by_cases hxid : (x.id == (applyRelease p0 it.quantity).id) = true
          · simp only [Function.comp_apply, if_pos hxid]
            exact (eq_of_beq hxid).symm
          · simp only [Function.comp_apply, if_neg hxid]
        have hnd2 : (((saveInStore store (applyRelease p0 it.quantity)).map
            MProduct.id)).Nodup := by rw [hidmap]; exact hnd
        have hinv2 : ∀ x ∈ saveInStore store (applyRelease p0 it.quantity),
            invariantHolds x := by
          intro x hx
          obtain ⟨y, hy, rfl⟩ := List.mem_map.mp hx
          by_cases hyid : (y.id == (applyRelease p0 it.quantity).id) = true
          · simp only [if_pos hyid]
            unfold invariantHolds applyRelease
            refine ⟨rfl, ?_, ?_, ?_⟩ <;> simp only <;> omega
          · simp only [if_neg hyid]
            exact hinv y hy
        have hbound2 : ∀ x ∈ saveInStore store (applyRelease p0 it.quantity),
            totalQty rest x.id ≤ x.reserved := by
          intro x hx
          obtain ⟨y, hy, rfl⟩ := List.mem_map.mp hx
          by_cases hyid : (y.id == (applyRelease p0 it.quantity).id) = true
          · simp only [if_pos hyid]
            rw [hp2id]
            show totalQty rest p0.id ≤ p0.reserved - it.quantity
            omega
          · simp only [if_neg hyid]
            have hne : it.productId ≠ y.id := by
              intro he
              exact hyid (by rw [hp2id, hp0id, he]; exact beq_self_eq_true y.id)
            have hb := hbound y hy
            rwa [totalQty_cons, if_neg (by simp [hne]), zero_add] at hb
        rw [releaseItems_spec rest _ hnd2 hinv2 hq_rest hbound2]
        congr 1
        unfold saveInStore
        rw [List.map_map]
        refine (List.map_congr_left fun y hy => ?_).symm
        by_cases hyid : (y.id == (applyRelease p0 it.quantity).id) = true
        · have hy0 : y = p0 :=
            List.inj_on_of_nodup_map hnd hy hp0mem ((eq_of_beq hyid).trans hp2id)
          subst hy0
          simp only [Function.comp_apply, if_pos hyid]
          simp only [hp2id, htot0]
          simp only [applyRelease, MProduct.mk.injEq, true_and]
          constructor <;> omega
        · have hne : it.productId ≠ y.id := by
            intro he
            exact hyid (by rw [hp2id, hp0id, he]; exact beq_self_eq_true y.id)
          simp only [Function.comp_apply, if_neg hyid]
          rw [totalQty_cons, if_neg (by simp [hne]), zero_add]

/-- C8 (amended): a successful save persists `available` recomputed as
`quantity − reserved` with the new `quantity` and `reserved` validated
non-negative, but the recomputed `available` itself is NOT validated
(mongoose validates before user pre-save hooks), so it can be persisted
negative; `reserveInventory` increments `reserved` exactly when the stored
`available` covers the request, fails without mutation otherwise, and
preserves the full invariant from any state satisfying it; and cancelling
a not-yet-shipped order releases exactly the summed reserved quantities of
its lines on every product. -/
theorem inventory_invariant :
    (∀ p p2, save p = some p2 →
      p2.available = p2.quantity - p2.reserved ∧
        0 ≤ p2.reserved ∧ 0 ≤ p2.quantity) ∧
    (∀ p qty p2, reserveInventory p qty = some p2 →
      qty ≤ p.available ∧ p2.reserved = p.reserved + qty ∧
        p2.quantity = p.quantity ∧ p2.available = p2.quantity - p2.reserved) ∧
    (∀ p qty p2, invariantHolds p → 0 ≤ qty →
      reserveInventory p qty = some p2 → invariantHolds p2) ∧
    (∀ p qty, p.available < qty → reserveInventory p qty = none) ∧
    (∀ (store : List MProduct) (o : MOrder),
      (store.map MProduct.id).Nodup →
      o.status ≠ "shipped" → o.status ≠ "delivered" →
      (∀ p ∈ store, invariantHolds p) →
      (∀ it ∈ o.items, 0 ≤ it.quantity) →
      (∀ p ∈ store, totalQty o.items p.id ≤ p.reserved) →
      cancelOrder store o = .ok
        (store.map fun p => applyRelease p (totalQty o.items p.id),
         { o with status := "cancelled" })) := by
  refine ⟨?_, ?_, ?_, ?_, ?_⟩
  · intro p p2 h
    unfold save at h
    split at h
    · rename_i hc
      cases h
      simp only [Bool.and_eq_true, decide_eq_true_eq] at hc
      exact ⟨rfl, hc.1.2, hc.1.1⟩
    · cases h
  · intro p qty p2 h
    unfold reserveInventory at h
    split at h
    · rename_i hle
      unfold save at h
      split at h
      · cases h
        exact ⟨hle, rfl, rfl, rfl⟩
      · cases h
    · cases h
  · intro p qty p2 hp hqty h
    obtain ⟨h1, h2, h3, h4⟩ := hp
    unfold reserveInventory at h
    split at h
    · rename_i hle
      unfold save at h
      split at h
      · cases h
        refine ⟨rfl, ?_, ?_, ?_⟩
        · show 0 ≤ p.quantity - (p.reserved + qty)
          omega
        · show 0 ≤ p.reserved + qty
          omega
        · exact h4
      · cases h
    · cases h
  · intro p qty hlt
    unfold reserveInventory
    rw [if_neg (not_le.mpr hlt)]
  · intro store o hnd hs hd hinv hq hbound
    unfold cancelOrder
    rw [if_neg (by simp [hs, hd]), releaseItems_spec o.items store hnd hinv hq hbound]

/-- C8 counterexample: lowering the quantity of a consistent document below
its reservations with `updateInventory` passes validation (the `min: 0`
check on `available` sees the stale stored 5, validation preceding the
pre-save hook), then the hook recomputes `available = 2 - 5 = -3` and that
negative value is persisted — the claimed `available ≥ 0` invariant does
not hold at all times. -/
theorem negative_available_persisted :
    invariantHolds ⟨3, 10, 5, 5⟩ ∧
    updateInventory ⟨3, 10, 5, 5⟩ 2 = some ⟨3, 2, 5, -3⟩ ∧
    ¬ invariantHolds ⟨3, 2, 5, -3⟩ := by
  refine ⟨by norm_num [invariantHolds], by decide, ?_⟩
  intro hcontra
  exact absurd hcontra.2.1 (by decide)

/-- C8 witness: a save that recomputes a validated document's `available`,
an in-bounds reservation preserving the invariant, a refused
over-reservation, and the cancellation of a pending three-line order that
releases 3 units on product 1 and 3 on product 2 exactly. -/
theorem inventory_invariant_witness :
    ((⟨7, 10, 4, 6⟩ : MProduct).available
      = (⟨7, 10, 4, 6⟩ : MProduct).quantity - (⟨7, 10, 4, 6⟩ : MProduct).reserved ∧
      0 ≤ (⟨7, 10, 4, 6⟩ : MProduct).reserved ∧
      0 ≤ (⟨7, 10, 4, 6⟩ : MProduct).quantity) ∧
    invariantHolds ⟨9, 10, 5, 5⟩ ∧
    reserveInventory ⟨9, 10, 3, 7⟩ 8 = none ∧
    cancelOrder mStore mOrder = .ok
      (mStore.map fun p => applyRelease p (totalQty mOrder.items p.id),
       { mOrder with status := "cancelled" }) := by
  refine ⟨inventory_invariant.1 ⟨7, 10, 4, 0⟩ ⟨7, 10, 4, 6⟩ (by decide),
    inventory_invariant.2.2.1 ⟨9, 10, 3, 7⟩ 2 ⟨9, 10, 5, 5⟩
      (by norm_num [invariantHolds]) (by decide) (by decide),
    inventory_invariant.2.2.2.1 ⟨9, 10, 3, 7⟩ 8 (by decide), ?_⟩
  exact inventory_invariant.2.2.2.2 mStore mOrder (by decide) (by decide) (by decide)
    (by norm_num [mStore, invariantHolds]) (by decide) (by decide)

end Mongo
